import Mathlib

/-!
Verification development for the student-risk prediction service.

The definitions below are a shallow embedding of the request-handling
pipeline of the repository (the two route variants `app/routes.py` and
`student-risk-app/app/routes.py`, plus the feature-engineering contract of
`train_model.py`).  JSON scalar values are modelled by `Val`, a request
body by an association list `Req`, machine floats by `ℚ`, and the external
collaborators (classifier, probability head, SHAP backend, text-generation
backend, faculty-alert channel) by explicit function/value parameters in a
context structure.  Logging is modelled as a list of emitted messages.
-/

/-- A JSON scalar value as it arrives in a request body: null, a string,
an integer number, or a non-integer number. -/
inductive Val where
  | null : Val
  | str (s : String) : Val
  | int (n : ℤ) : Val
  | rat (q : ℚ) : Val
deriving DecidableEq

deriving instance DecidableEq for Except

/-- A JSON object (request body or single data-frame row): an association
list from field name to value, first binding wins. -/
abbrev Req := List (String × Val)

/-- Look up a field of a request/row (first binding). -/
def Req.lookup (r : Req) (k : String) : Option Val :=
  (r.find? (fun kv => kv.1 = k)).map (·.2)

/-- Whether a field is present (Python `k in data`). -/
def Req.hasKey (r : Req) (k : String) : Bool :=
  (r.lookup k).isSome

/-- Field value with a default (Python `data.get(k, d)`). -/
def Req.getD (r : Req) (k : String) (d : Val) : Val :=
  (r.lookup k).getD d

/-- Overwrite the value of an existing field, keeping the order of the
row (pandas `df[col] = v` for a column that is already present; the
callers below only use it under a `hasKey` guard). -/
def Req.set (r : Req) (k : String) (v : Val) : Req :=
  r.map (fun kv => if kv.1 = k then (k, v) else kv)

/-- Python truncation toward zero, `int(q)` on a float. -/
def pyTrunc (q : ℚ) : ℤ :=
  if 0 ≤ q then ⌊q⌋ else -⌊-q⌋

/-- Whitespace as stripped by Python `str.strip()`. -/
def isSpaceChar (c : Char) : Bool :=
  c == ' ' || c == '\t' || c == '\n' || c == '\x0d'

/-- Strip leading and trailing whitespace from a character list. -/
def stripChars (cs : List Char) : List Char :=
  ((cs.dropWhile isSpaceChar).reverse.dropWhile isSpaceChar).reverse

/-- Python `s.strip()` (structural implementation, so that closed
instances reduce inside the kernel). -/
def pyStrip (s : String) : String := String.mk (stripChars s.data)

/-- Python `s.lower()`. -/
def pyLower (s : String) : String := String.mk (s.data.map Char.toLower)

/-- Python `s.upper()`. -/
def pyUpper (s : String) : String := String.mk (s.data.map Char.toUpper)

/-- Split a character list on a separator character (like Python
`s.split(sep)` for a one-character separator). -/
def splitOnChar (c : Char) : List Char → List (List Char)
  | [] => [[]]
  | x :: xs =>
    let r := splitOnChar c xs
    if x == c then [] :: r
    else
      match r with
      | [] => [[x]]
      | h :: t => (x :: h) :: t

/-- Digits of a string parsed as a natural number; `none` when the string
is empty or holds a non-digit. -/
def parseDigits : List Char → Option ℕ
  | [] => none
  | cs =>
    if cs.all Char.isDigit then
      some (cs.foldl (fun a c => a * 10 + (c.toNat - 48)) 0)
    else none

/-- Python `float(s)` restricted to the decimal literals the service
actually receives: optional sign, digits, optional fractional part. -/
def parseFloat (s : String) : Option ℚ :=
  let t := stripChars s.data
  let (neg, u) : Bool × List Char :=
    match t with
    | '-' :: rest => (true, rest)
    | _ => (false, t)
  let signed : ℚ → ℚ := fun q => if neg then -q else q
  match splitOnChar '.' u with
  | [a] => (parseDigits a).map (fun n => signed n)
  | [a, b] =>
    match parseDigits a, parseDigits b with
    | some ip, some fp => some (signed ((ip : ℚ) + (fp : ℚ) / (10 ^ b.length)))
    | some ip, none => if b.isEmpty then some (signed (ip : ℚ)) else none
    | none, some fp =>
      if a.isEmpty then some (signed ((fp : ℚ) / (10 ^ b.length))) else none
    | none, none => none
  | _ => none

/-- Python `int(s)` on a string: optional sign, then decimal digits. -/
def parseIntStr (s : String) : Option ℤ :=
  match stripChars s.data with
  | '-' :: rest => (parseDigits rest).map (fun n => -(n : ℤ))
  | '+' :: rest => (parseDigits rest).map (fun n => (n : ℤ))
  | cs => (parseDigits cs).map (fun n => (n : ℤ))

/-- Python `int(x)`: identity on ints, truncation toward zero on floats,
decimal parse on strings, failure (`ValueError`/`TypeError`) otherwise. -/
def pyInt : Val → Option ℤ
  | Val.int n => some n
  | Val.rat q => some (pyTrunc q)
  | Val.str s => parseIntStr s
  | Val.null => none

/-- Python `float(x)`: ints and floats embed, strings are parsed,
anything else fails. -/
def pyFloat : Val → Option ℚ
  | Val.int n => some (n : ℚ)
  | Val.rat q => some q
  | Val.str s => parseFloat s
  | Val.null => none

/-- Python `str(x)` for the values that reach the string checks of the
validators (numbers are rendered with `toString`, which agrees with
Python on integers; `None` renders as `"None"`). -/
def pyStr : Val → String
  | Val.null => "None"
  | Val.str s => s
  | Val.int n => toString n
  | Val.rat q => toString q

/-- Python `s.isalnum()`: non-empty and every character alphanumeric. -/
def pyIsAlnum (s : String) : Bool :=
  !s.data.isEmpty && s.data.all Char.isAlphanum

/-- Python `round(q)` on a real value: round half to even. -/
def pyRound (q : ℚ) : ℤ :=
  if q - (⌊q⌋ : ℚ) < 1 / 2 then ⌊q⌋
  else if 1 / 2 < q - (⌊q⌋ : ℚ) then ⌊q⌋ + 1
  else if ⌊q⌋ % 2 = 0 then ⌊q⌋ else ⌊q⌋ + 1

theorem pyRound_cases (q : ℚ) : pyRound q = ⌊q⌋ ∨ pyRound q = ⌊q⌋ + 1 := by
  unfold pyRound
  split_ifs <;> simp

theorem pyRound_le {q : ℚ} {hi : ℤ} (h : q ≤ (hi : ℚ)) : pyRound q ≤ hi := by
  have hfloor : ⌊q⌋ ≤ hi := by
    have h2 := Int.floor_le_floor (α := ℚ) h
    rwa [Int.floor_intCast] at h2
  rcases pyRound_cases q with he | he
  · rw [he]; exact hfloor
  · rw [he]
    by_cases hq : ⌊q⌋ = hi
    · exfalso
      have hle : q - (⌊q⌋ : ℚ) ≤ 0 := by rw [hq]; linarith
      have hfrac : q - (⌊q⌋ : ℚ) < 1 / 2 := by linarith
      unfold pyRound at he
      rw [if_pos hfrac] at he
      omega
    · omega

theorem le_pyRound {q : ℚ} {lo : ℤ} (h : (lo : ℚ) ≤ q) : lo ≤ pyRound q := by
  have hfl : lo ≤ ⌊q⌋ := Int.le_floor.mpr h
  rcases pyRound_cases q with he | he <;> omega

theorem pyRound_bounds {q : ℚ} {lo hi : ℤ} (h1 : (lo : ℚ) ≤ q) (h2 : q ≤ (hi : ℚ)) :
    lo ≤ pyRound q ∧ pyRound q ≤ hi :=
  ⟨le_pyRound h1, pyRound_le h2⟩

/-! ## Categorical encoding and preprocessing (`preprocess_data_for_pipeline`) -/

/-- The fitted per-field encoder table: for each categorical field the
sorted `classes_` array of its `LabelEncoder`; `transform v` is the index
of `v` in that array. -/
abbrev EncTable := List (String × List String)

/-- Look up the classes of one field of the encoder table. -/
def EncTable.classesOf (enc : EncTable) (k : String) : Option (List String) :=
  (enc.find? (fun kv => kv.1 = k)).map (·.2)

/-- The categorical columns encoded by `preprocess_data_for_pipeline`
(both route variants use the same list). -/
def categorical_cols : List String :=
  ["school", "sex", "address", "famsize", "Pstatus", "Mjob", "Fjob",
   "reason", "guardian", "schoolsup", "famsup", "paid", "activities",
   "nursery", "higher", "internet", "romantic"]

/-- The exact model-input column order fixed at training time
(`expected_columns` in both route variants). -/
def expected_columns : List String :=
  ["school", "sex", "age", "address", "famsize", "Pstatus", "Medu", "Fedu",
   "Mjob", "Fjob", "reason", "guardian", "traveltime", "studytime",
   "failures", "schoolsup", "famsup", "paid", "activities", "nursery",
   "higher", "internet", "romantic", "famrel", "freetime", "goout",
   "Dalc", "Walc", "health", "absences", "G1", "G2",
   "average_grade", "grade_change"]

/-- Encoding of one raw cell against the classes of its field: a string
contained in `classes_` is replaced by its index, any other value
(unknown string, or non-string, which Python `in classes_` also reports
as absent) gets the default code 0. -/
def encodeCell (classes : List String) (raw : Val) : Val :=
  match raw with
  | Val.str s =>
    if classes.contains s then Val.int (classes.indexOf s) else Val.int 0
  | _ => Val.int 0

/-- The column-update loop of `preprocess_data_for_pipeline`: each
categorical column that is present in the row and in the encoder table is
replaced by its integer code. -/
def encodeRow (row : Req) (enc : EncTable) : Req :=
  categorical_cols.foldl
    (fun r col =>
      match r.lookup col, enc.classesOf col with
      | some raw, some classes => r.set col (encodeCell classes raw)
      | _, _ => r)
    row

/-- Final materialisation `encoded_data_df[expected_columns]`: the values
of the listed columns in the listed order; a missing column raises a
`KeyError` naming it. -/
def selectColumns (row : Req) : List String → Except String (List Val)
  | [] => Except.ok []
  | c :: cs =>
    match row.lookup c with
    | none => Except.error c
    | some v =>
      match selectColumns row cs with
      | Except.error e => Except.error e
      | Except.ok vs => Except.ok (v :: vs)

/-- `preprocess_data_for_pipeline(data_df, label_encoder)` from
`app/routes.py` (identical in `student-risk-app/app/routes.py`): encode
the categorical columns, then reorder to the fixed training column order.
Note that `average_grade` and `grade_change` are only selected here: the
function never computes them. -/
def preprocess_data_for_pipeline (row : Req) (enc : EncTable) :
    Except String (List Val) :=
  selectColumns (encodeRow row enc) expected_columns

/-! ## Risk mapping and grade estimation -/

/-- `map_risk_category(grade)` from `app/routes.py`: tier and descriptor
derived from a 0–20 grade. -/
def map_risk_category (grade : ℤ) : String × String :=
  if grade < 10 then
    ("high", "Requires immediate intervention and support.")
  else if 10 ≤ grade ∧ grade ≤ 13 then
    ("medium", "Needs focused attention to improve academic trajectory.")
  else
    ("low", "On track, but minor improvements can maximize potential.")

/-- `risk_mapping = {0: 'High', 1: 'Low', 2: 'Medium'}` with the
`.get(cls, 'Unknown')` default used in `predict_risk`. -/
def risk_mapping (cls : ℤ) : String :=
  if cls = 0 then "High" else if cls = 1 then "Low"
  else if cls = 2 then "Medium" else "Unknown"

/-- `grade_ranges = {0: (0, 9), 1: (14, 20), 2: (10, 13)}` with the
`.get(int(cls), (10, 12))` default used in `predict_risk`. -/
def grade_ranges (cls : ℤ) : ℤ × ℤ :=
  if cls = 0 then (0, 9) else if cls = 1 then (14, 20)
  else if cls = 2 then (10, 13) else (10, 12)

/-- `predicted_g3 = int(round(lo + (hi - lo) * class_confidence))`. -/
def estimate_g3 (cls : ℤ) (confidence : ℚ) : ℤ :=
  pyRound (((grade_ranges cls).1 : ℚ) +
    (((grade_ranges cls).2 : ℚ) - ((grade_ranges cls).1 : ℚ)) * confidence)

/-- Numpy-style indexing `ps[i]` with negative indices counting from the
end; `none` models an `IndexError`. -/
def pyIndex (ps : List ℚ) (i : ℤ) : Option ℚ :=
  if 0 ≤ i ∧ i < (ps.length : ℤ) then ps.get? i.toNat
  else if -(ps.length : ℤ) ≤ i ∧ i < 0 then ps.get? (ps.length - i.natAbs)
  else none

/-- Step 4 of `predict_risk`: the probability vector and the confidence
of the predicted class; any exception from `predict_proba` or from the
indexing gives the documented fallback `(None, 0.5)`. -/
def confidence_of (proba : Except Unit (List ℚ)) (cls : ℤ) :
    Option (List ℚ) × ℚ :=
  match proba with
  | Except.error _ => (none, 1 / 2)
  | Except.ok ps =>
    match pyIndex ps cls with
    | some c => (some ps, c)
    | none => (none, 1 / 2)

/-- `proba_map = {0: 'High', 1: 'Low', 2: 'Medium'}` used to build the
response probability payload. -/
def proba_map (i : ℕ) : Option String :=
  if i = 0 then some "High" else if i = 1 then some "Low"
  else if i = 2 then some "Medium" else none

/-- `{proba_map[i]: float(probabilities[i]) for i in range(len(probabilities)) if i in proba_map}`. -/
def proba_payload (ps : List ℚ) : List (String × ℚ) :=
  (List.range ps.length).filterMap
    (fun i => (proba_map i).map (fun nm => (nm, ps.getD i 0)))

/-! ## Feature attribution (`get_shap_feature_importance`, both variants) -/

/-- A feature attribution pair: display name and signed importance. -/
abbrev Feature := String × ℚ

/-- The static fallback list of `get_shap_feature_importance` in
`app/routes.py`. -/
def fallback_features : List Feature :=
  [("G2 Grade", 85 / 100), ("Failures", 65 / 100), ("Study Time", 42 / 100),
   ("Absences", -(38 / 100)), ("Family Relation", 30 / 100)]

/-- `get_shap_feature_importance` from `app/routes.py`: computed mode is
hard-disabled for memory-constrained deployments, so every call returns
the static fallback, with a log line saying which branch was taken
(missing explainer, or the deliberate skip). -/
def get_shap_feature_importance_main (explainerLoaded : Bool) :
    List Feature × List String :=
  if explainerLoaded then
    (fallback_features,
     ["Skipping SHAP calculation to avoid memory exhaustion on low-resource environments"])
  else
    (fallback_features, ["SHAP explainer not loaded, using fallback features"])

/-- Generic numpy-style list indexing with negative indices. -/
def pyGet {α : Type} (l : List α) (i : ℤ) : Option α :=
  if 0 ≤ i ∧ i < (l.length : ℤ) then l.get? i.toNat
  else if -(l.length : ℤ) ≤ i ∧ i < 0 then l.get? (l.length - i.natAbs)
  else none

/-- The shapes the SHAP backend can hand back, as normalised by
`get_shap_feature_importance` in `student-risk-app/app/routes.py`: a
per-class list of 2-D arrays, a `(samples, classes, features)` array, a
`(samples, features)` array, or an already flat vector (the
`values.reshape(values.shape[-1])` branch). -/
inductive ShapValues where
  | perClass (vss : List (List (List ℚ))) : ShapValues
  | arr3 (a : List (List (List ℚ))) : ShapValues
  | arr2 (a : List (List ℚ)) : ShapValues
  | arr1 (a : List ℚ) : ShapValues
deriving DecidableEq

/-- The shape-normalisation step: extract the flat per-feature vector for
the predicted class; `none` models an `IndexError` inside the `try`
block (caught, triggering fallback). -/
def normalizeShap (v : ShapValues) (cls : ℤ) : Option (List ℚ) :=
  match v with
  | ShapValues.perClass vss => (pyGet vss cls).bind (fun rows => rows.head?)
  | ShapValues.arr3 a => a.head?.bind (fun m => pyGet m cls)
  | ShapValues.arr2 a => a.head?
  | ShapValues.arr1 a => some a

/-- The `readable_names` display dictionary of the student-risk-app
variant. -/
def readable_names : List (String × String) :=
  [("G1", "First Grade (G1)"), ("G2", "Second Grade (G2)"),
   ("failures", "Past Failures"), ("studytime", "Weekly Study Time"),
   ("absences", "Absences"), ("Medu", "Mother\x27s Education"),
   ("Fedu", "Father\x27s Education"), ("goout", "Going Out Frequency"),
   ("health", "Health Status"), ("famrel", "Family Relationship Quality")]

/-- First letter of a word upper-cased, rest lower-cased. -/
def titleChars : List Char → List Char
  | [] => []
  | c :: cs => c.toUpper :: cs.map Char.toLower

/-- Python `s.title()` for the space-separated words produced by
`name.replace('_', ' ')`. -/
def pyTitle (s : String) : String :=
  String.mk (List.intercalate [' '] ((splitOnChar ' ' s.data).map titleChars))

/-- `readable_names.get(name, name.replace('_', ' ').title())`. -/
def readableName (n : String) : String :=
  match (readable_names.find? (fun kv => kv.1 = n)).map (·.2) with
  | some d => d
  | none => pyTitle (String.mk (n.data.map (fun ch => if ch == '_' then ' ' else ch)))

/-- Python `abs` on a rational (written with an explicit conditional so
that closed instances reduce inside the kernel). -/
def qAbs (q : ℚ) : ℚ := if q < 0 then -q else q

/-- Descending-absolute-importance ordering used by
`sorted(importance_pairs, key=lambda x: abs(x[1]), reverse=True)`. -/
def absDesc (a b : Feature) : Prop := qAbs b.2 ≤ qAbs a.2

instance : DecidableRel absDesc :=
  fun a b => inferInstanceAs (Decidable (qAbs b.2 ≤ qAbs a.2))

instance : IsTotal Feature absDesc :=
  ⟨fun a b => le_total (qAbs b.2) (qAbs a.2)⟩

instance : IsTrans Feature absDesc :=
  ⟨fun _ _ _ hab hbc => le_trans hbc hab⟩

/-- The computed-mode result of the student-risk-app variant: zip the
column names with the per-class SHAP vector, sort by descending absolute
importance, keep the top 5, and apply display renaming.  (Ties may be
ordered differently than by Python's stable sort; no claim depends on
tie order.) -/
def computedTop5 (featureNames : List String) (classValues : List ℚ) :
    List Feature :=
  ((List.insertionSort absDesc (featureNames.zip classValues)).take 5).map
    (fun p => (readableName p.1, p.2))

/-- Fallback list of the student-risk-app variant when the explainer was
never loaded (returned without any log call). -/
def fallback_sra_full : List Feature :=
  [("Second Grade (G2)", 85 / 100), ("Past Failures", -(65 / 100)),
   ("Weekly Study Time", 40 / 100), ("Absences", -(30 / 100)),
   ("Mother\x27s Education", 25 / 100)]

/-- Conservative fallback list of the student-risk-app variant for an
exception inside the SHAP computation (returned with an error log). -/
def fallback_sra_error : List Feature :=
  [("Second Grade (G2)", 85 / 100), ("Weekly Study Time", 40 / 100),
   ("Absences", -(30 / 100))]

/-- `get_shap_feature_importance` from `student-risk-app/app/routes.py`.
The external SHAP call is the `backend` parameter: `none` means the call
(or both explainer constructions) raised, `some v` means it returned an
array of shape `v`. -/
def get_shap_feature_importance_sra (explainerLoaded : Bool)
    (backend : Option ShapValues) (predictedClass : ℤ)
    (featureNames : List String) : List Feature × List String :=
  if explainerLoaded then
    match backend with
    | none => (fallback_sra_error, ["SHAP calculation error"])
    | some v =>
      match normalizeShap v predictedClass with
      | some cvs => (computedTop5 featureNames cvs, [])
      | none => (fallback_sra_error, ["SHAP calculation error"])
  else (fallback_sra_full, [])

/-! ## Mentoring strategies and advice generation -/

/-- One entry of the `strategies` dictionary of `get_mentoring_strategy`. -/
structure Strategy where
  persona : String
  focus : String
  routing_action : String
  tone : String
deriving DecidableEq

def strategy_high : Strategy :=
  ⟨"Academic Crisis Counselor",
   "Immediate intervention, recovery plans, and fundamental concept review.",
   "🚩 ALERT: Routed to Human Intervention Team",
   "Urgent, supportive, and highly structured"⟩

def strategy_medium : Strategy :=
  ⟨"Empathetic Study Coach",
   "Study habit refinement, time management, and motivation.",
   "ℹ️ ROUTE: Standard AI Mentoring Session",
   "Encouraging, practical, and conversational"⟩

def strategy_low : Strategy :=
  ⟨"High-Performance Career Mentor",
   "Advanced academic opportunities, leadership, and scholarships.",
   "🚀 ROUTE: Academic Excellence Path",
   "Challenging, professional, and growth-oriented"⟩

/-- `get_mentoring_strategy(risk_category)`:
`strategies.get(risk_category.lower(), strategies['medium'])`. -/
def get_mentoring_strategy (risk_category : String) : Strategy :=
  if pyLower risk_category = "high" then strategy_high
  else if pyLower risk_category = "medium" then strategy_medium
  else if pyLower risk_category = "low" then strategy_low
  else strategy_medium

/-- The `'high'` mock advice template of `generate_mock_advice`. -/
def mock_advice_high : String :=
  "\n### ⚡ Priority Actions\n- **Schedule immediate one-on-one counseling** with academic advisor within 24 hours\n- **Create a daily study schedule** with specific time blocks for each subject\n- **Join tutoring sessions** for subjects where grades are below 12/20\n- **Set up weekly check-ins** with teachers to monitor progress\n\n### 📚 Academic Plan\n- **Focus on foundational concepts** - review previous material before moving forward\n- **Break study sessions into 25-minute intervals** (Pomodoro technique) with 5-min breaks\n- **Practice active recall** - test yourself regularly instead of passive reading\n- **Form a study group** with peers who are performing well\n\n### 🧘 Personal Growth\n- **Improve sleep hygiene** - aim for 7-8 hours nightly to boost cognitive function\n- **Reduce social media time** by 50% and redirect to productive activities\n- **Practice stress management** through meditation or physical exercise\n- **Build a reward system** - celebrate small wins to maintain motivation\n"

/-- The `'medium'` mock advice template of `generate_mock_advice`. -/
def mock_advice_medium : String :=
  "\n### ⚡ Priority Actions\n- **Identify weak areas** through self-assessment and past exam analysis\n- **Increase study time by 2-3 hours per week** focusing on challenging subjects\n- **Attend office hours** to clarify doubts and get personalized guidance\n- **Review and improve note-taking methods** for better retention\n\n### 📚 Academic Plan\n- **Create weekly goals** with specific, measurable targets for each subject\n- **Use active learning techniques** - teach concepts to others or explain them aloud\n- **Complete practice problems** beyond homework to reinforce understanding\n- **Track your progress** with a study journal or app\n\n### 🧘 Personal Growth\n- **Balance academics with activities** - maintain hobbies to prevent burnout\n- **Build better time management** using planners or digital calendars\n- **Stay consistent** with study routines even on weekends\n- **Seek peer feedback** on your learning approach and adjust as needed\n"

/-- The `'low'` mock advice template of `generate_mock_advice`. -/
def mock_advice_low : String :=
  "\n### ⚡ Priority Actions\n- **Maintain current momentum** - consistency is key to sustained success\n- **Challenge yourself** with advanced materials or enrichment activities\n- **Mentor struggling peers** to reinforce your own understanding\n- **Explore extracurricular opportunities** that align with your interests\n\n### 📚 Academic Plan\n- **Set stretch goals** to push beyond current performance levels\n- **Dive deeper into topics of interest** through independent projects or research\n- **Prepare for advanced coursework** by previewing upcoming material\n- **Optimize study efficiency** - focus on quality over quantity\n\n### 🧘 Personal Growth\n- **Develop leadership skills** by taking on group project leadership roles\n- **Build professional skills** through internships or volunteer work\n- **Cultivate growth mindset** - view challenges as opportunities\n- **Plan for the future** - research college/career paths aligned with strengths\n"

/-- `mock_advice_templates.get(risk_category, mock_advice_templates['medium'])`. -/
def mock_template (risk_category : String) : String :=
  if risk_category = "high" then mock_advice_high
  else if risk_category = "medium" then mock_advice_medium
  else if risk_category = "low" then mock_advice_low
  else mock_advice_medium

/-- `generate_mock_advice(risk_category, predicted_g3, custom_prompt_text)`
from `app/routes.py`: the always-available fallback advice. -/
def generate_mock_advice (risk_category : String) (predicted_g3 : ℤ)
    (custom_prompt_text : String) : String :=
  let base := mock_template risk_category
  let based :=
    if custom_prompt_text ≠ "" then
      "\n*Addressing your request: " ++ String.mk (custom_prompt_text.data.take 100) ++ "...*\n" ++ base
    else base
  "> **MOCK MODE - Demo Advice (Predicted Grade: " ++ toString predicted_g3 ++
    "/20)**\n" ++ based

/-- Rendering of `f"{x:.2f}"` for the impact list (decimal rounding of
the rational model value; the float-level digits play no role in any
claim). -/
def fmt2 (q : ℚ) : String :=
  let n := pyRound (q * 100)
  let sign := if n < 0 then "-" else ""
  let m := n.natAbs
  sign ++ toString (m / 100) ++ "." ++
    (if m % 100 < 10 then "0" else "") ++ toString (m % 100)

/-- `"\n".join([f"* **{f['feature']}**: Impact {f['importance']:.2f}" ...])`. -/
def feature_list_str (top_features : List Feature) : String :=
  "\n".intercalate
    (top_features.map (fun f => "* **" ++ f.1 ++ "**: Impact " ++ fmt2 f.2))

/-- The structured Gemini prompt built by `generate_mentoring_advice` in
`app/routes.py`. -/
def build_prompt_main (strategy : Strategy) (custom_prompt_text : String)
    (predicted_g3 : ℤ) (risk_category : String)
    (top_features : List Feature) : String :=
  let custom_prompt_section :=
    if custom_prompt_text ≠ "" then
      "User Request: \x27" ++ custom_prompt_text ++ "\x27"
    else ""
  let task_instruction :=
    if custom_prompt_text ≠ "" then
      "IMPORTANT: Follow the user\x27s request EXACTLY as stated. Adapt tone/format as requested."
    else "Provide advice in 3 sections (### headings) with max 4 bullets each."
  "\n    ROLE: You are an " ++ strategy.persona ++ ".\n    STRATEGY: " ++
    strategy.focus ++ "\n    TONE: " ++ strategy.tone ++
    "\n\n    CONTEXT:\n    " ++ custom_prompt_section ++
    "\n    - Predicted Final Grade: " ++ toString predicted_g3 ++
    " / 20\n    - Risk Level: " ++ pyUpper risk_category ++
    "\n    - Key Factors:\n    " ++ feature_list_str top_features ++
    "\n\n    TASK: " ++ task_instruction ++
    "\n\n    ### ⚡ Priority Actions\n    (Advice specific to the " ++
    strategy.persona ++
    ")\n\n    ### 📚 Academic Plan\n\n    ### 🧘 Personal Growth\n    "

/-- The external Gemini collaborator: a function from the prompt to
either a returned text (`ok`) or a raised exception (`error`); `none`
models a Gemini model that was never initialised. -/
abbrev Gemini := Option (String → Except Unit String)

/-- `generate_mentoring_advice` from `app/routes.py`: mock mode or a
missing model use the fallback outright; a Gemini exception or an empty
response text also fall back; otherwise the routed advice is returned. -/
def generate_mentoring_advice_main (useMockMode : Bool) (gemini : Gemini)
    (student_data : Req) (predicted_g3 : ℤ) (risk_category : String)
    (top_features : List Feature) : String :=
  let strategy := get_mentoring_strategy risk_category
  let custom_prompt_text := pyStrip (pyStr (student_data.getD "customPrompt" (Val.str "")))
  let prompt := build_prompt_main strategy custom_prompt_text predicted_g3
    risk_category top_features
  let fallback := generate_mock_advice risk_category predicted_g3 custom_prompt_text
  if useMockMode then fallback
  else
    match gemini with
    | none => fallback
    | some g =>
      match g prompt with
      | Except.error _ => fallback
      | Except.ok t =>
        if pyStrip t = "" then fallback
        else "> **" ++ strategy.routing_action ++ "**\n\n" ++ pyStrip t

/-- The prompt built by `generate_mentoring_advice` in
`student-risk-app/app/routes.py` (the heading glyphs reproduce the
mis-encoded bytes of the source file). -/
def build_prompt_sra (custom_prompt_text : String) (predicted_g3 : ℤ)
    (risk_category : String) (top_features : List Feature) : String :=
  let custom_prompt_section :=
    if custom_prompt_text ≠ "" then
      "The user has a specific request: \x27" ++ custom_prompt_text ++
        "\x27. Ensure your advice directly addresses this request first."
    else ""
  "\n    You are an AI Student Mentor. Based on the following student profile and prediction,\n    provide personalized, actionable mentoring advice in a structured, easy-to-read format using markdown.\n    \n    " ++
    custom_prompt_section ++
    "\n\n    **Predicted Final Grade (G3)**: " ++ toString predicted_g3 ++
    " / 20\n    **Risk Level**: " ++ pyUpper risk_category ++
    "\n    **Key Influencing Factors**:\n    " ++ feature_list_str top_features ++
    "\n\n    The advice MUST be formatted using clear markdown headings (use ###) and a maximum of 4 bullet points under three main sections. Do not include any introductory or concluding text outside of these three sections:\n\n    ### âš¡ Immediate Focus Areas\n    * Focus on improving performance in core subjects, especially if G2 showed a drop.\n    * Dedicate specific, uninterrupted blocks of time for your most challenging classes.\n    * If Failures is a factor, consult with a school counselor to address foundational gaps.\n\n    ### ðŸ“š Academic Strategy\n    * Ensure your study environment supports the recommended study time.\n    * Actively seek feedback on G1 and G2 to pinpoint areas for improvement.\n    * Form a small, focused study group for collaborative learning once a week.\n\n    ### ðŸ§˜ Lifestyle Balance\n    * Prioritize getting 7-9 hours of sleep, as health is crucial for concentration.\n    * Plan \x27Going Out\x27 time to ensure it does not conflict with essential study hours.\n    * Leverage support systems: Discuss academic challenges openly with your Guardian.\n    "

/-- `generate_mentoring_advice` from `student-risk-app/app/routes.py`. -/
def generate_mentoring_advice_sra (gemini : Gemini) (student_data : Req)
    (predicted_g3 : ℤ) (risk_category : String)
    (top_features : List Feature) : String :=
  match gemini with
  | none =>
    "Mentoring advice generation is currently unavailable (Gemini model not initialized)."
  | some g =>
    let custom_prompt_text :=
      pyStrip (pyStr (student_data.getD "customPrompt" (Val.str "")))
    let prompt := build_prompt_sra custom_prompt_text predicted_g3
      risk_category top_features
    match g prompt with
    | Except.ok t => if pyStrip t = "" then "No advice generated." else pyStrip t
    | Except.error _ => "Error generating advice: "

/-! ## Input validation (both variants of `validate_student_data`) -/

/-- The fields both validators require to be present. -/
def required_fields : List String := ["G1", "G2", "age", "school", "sex"]

/-- The null/blank test of the main validator:
`data.get(field) is None or (isinstance(data[field], str) and not data[field].strip())`. -/
def isNullOrBlank (v : Val) : Bool :=
  match v with
  | Val.null => true
  | Val.str s => pyStrip s = ""
  | _ => false

/-- The per-field length and character checks applied to `school` and
`sex` by the main validator. -/
def checkStringField (data : Req) (f : String) : Option String :=
  let value := pyStr (data.getD f (Val.str ""))
  if value.length > 100 then
    some ("Field \x27" ++ f ++ "\x27 exceeds maximum length")
  else if !(pyIsAlnum (String.mk (value.data.filter (fun ch => !(ch == ' ' || ch == '-'))))) then
    some ("Field \x27" ++ f ++ "\x27 contains invalid characters")
  else none

/-- `validate_student_data(data)` from `app/routes.py`.  The bleach
sanitisation of `customPrompt` (an external library call that rewrites
the field in place) is modelled as a no-op; no claim depends on the
sanitised text.  The failure messages of failed `int()`/`float()` parses
stand in for the Python exception text. -/
def validate_student_data_main (data : Req) : Except String Unit :=
  let missing := required_fields.filter (fun f => !(data.hasKey f))
  if missing ≠ [] then
    Except.error ("Missing required fields: " ++ ", ".intercalate missing)
  else
    match required_fields.find? (fun f => isNullOrBlank (data.getD f Val.null)) with
    | some f => Except.error ("Field \x27" ++ f ++ "\x27 cannot be empty")
    | none =>
      match pyInt (data.getD "age" Val.null) with
      | none => Except.error "Invalid numeric values: invalid literal for int()"
      | some age =>
        if ¬(15 ≤ age ∧ age ≤ 30) then
          Except.error "Invalid numeric values: Age must be between 15 and 30"
        else
          match pyFloat (data.getD "G1" Val.null), pyFloat (data.getD "G2" Val.null) with
          | some g1, some g2 =>
            if ¬(0 ≤ g1 ∧ g1 ≤ 20 ∧ 0 ≤ g2 ∧ g2 ≤ 20) then
              Except.error "Invalid numeric values: Grades must be between 0 and 20"
            else
              match (["school", "sex"].filterMap (checkStringField data)).head? with
              | some e => Except.error e
              | none =>
                if data.hasKey "customPrompt" then
                  let custom := pyStr (data.getD "customPrompt" (Val.str ""))
                  if custom.length > 500 then
                    Except.error "Custom prompt exceeds maximum length (500 chars)"
                  else Except.ok ()
                else Except.ok ()
          | _, _ =>
            Except.error "Invalid numeric values: could not convert string to float"

/-- The `validations` range table of the student-risk-app validator:
field, lower bound, upper bound, display name, in source order. -/
def sra_validations : List (String × ℤ × ℤ × String) :=
  [("G1", 0, 20, "First grade (G1)"), ("G2", 0, 20, "Second grade (G2)"),
   ("age", 15, 22, "Age"), ("studytime", 1, 4, "Study time"),
   ("failures", 0, 4, "Number of failures"),
   ("famrel", 1, 5, "Family relationship"), ("freetime", 1, 5, "Free time"),
   ("goout", 1, 5, "Going out"),
   ("Dalc", 1, 5, "Workday alcohol consumption"),
   ("Walc", 1, 5, "Weekend alcohol consumption"),
   ("health", 1, 5, "Health status"), ("absences", 0, 93, "Absences"),
   ("Medu", 0, 4, "Mother\x27s education"),
   ("Fedu", 0, 4, "Father\x27s education"),
   ("traveltime", 1, 4, "Travel time")]

/-- One numeric range check of the student-risk-app validator (only
applied when the field is present). -/
def checkNumericSra (data : Req) (entry : String × ℤ × ℤ × String) :
    Option String :=
  match data.lookup entry.1 with
  | none => none
  | some v =>
    match pyInt v with
    | none =>
      some (entry.2.2.2 ++ " must be a valid number. Received: " ++ pyStr v)
    | some value =>
      if ¬(entry.2.1 ≤ value ∧ value ≤ entry.2.2.1) then
        some (entry.2.2.2 ++ " must be between " ++ toString entry.2.1 ++
          " and " ++ toString entry.2.2.1 ++ ". Received: " ++ toString value)
      else none

/-- The `categorical_validations` domain table of the student-risk-app
validator, in source order. -/
def sra_categorical_validations : List (String × List String) :=
  [("school", ["GP", "MS"]), ("sex", ["F", "M"]), ("address", ["U", "R"]),
   ("famsize", ["GT3", "LE3"]), ("Pstatus", ["T", "A"]),
   ("schoolsup", ["yes", "no"]), ("famsup", ["yes", "no"]),
   ("paid", ["yes", "no"]), ("activities", ["yes", "no"]),
   ("nursery", ["yes", "no"]), ("higher", ["yes", "no"]),
   ("internet", ["yes", "no"]), ("romantic", ["yes", "no"]),
   ("Mjob", ["teacher", "health", "services", "at_home", "other"]),
   ("Fjob", ["teacher", "health", "services", "at_home", "other"]),
   ("reason", ["home", "reputation", "course", "other"]),
   ("guardian", ["mother", "father", "other"])]

/-- Python list repr used inside the rejection message. -/
def pyListRepr (l : List String) : String :=
  "[" ++ ", ".intercalate (l.map (fun s => "\x27" ++ s ++ "\x27")) ++ "]"

/-- One categorical domain check of the student-risk-app validator (only
applied when the field is present; a non-string value is never a member
of the string domain, hence rejected). -/
def checkCategoricalSra (data : Req) (entry : String × List String) :
    Option String :=
  match data.lookup entry.1 with
  | none => none
  | some v =>
    if (match v with | Val.str s => entry.2.contains s | _ => false) then none
    else
      some (entry.1 ++ " must be one of " ++ pyListRepr entry.2 ++
        ". Received: " ++ pyStr v)

/-- `validate_student_data(data)` from `student-risk-app/app/routes.py`:
first missing required field, then the numeric range table, then the
categorical domain table; the first failure raises. -/
def validate_student_data_sra (data : Req) : Except String Unit :=
  match required_fields.find? (fun f => !(data.hasKey f)) with
  | some f => Except.error ("Missing required field: " ++ f)
  | none =>
    match (sra_validations.filterMap (checkNumericSra data)).head? with
    | some e => Except.error e
    | none =>
      match (sra_categorical_validations.filterMap (checkCategoricalSra data)).head? with
      | some e => Except.error e
      | none => Except.ok ()

/-! ## Request orchestration (`predict_risk`, both variants) -/

/-- The process context of the main app: which artifacts loaded, the
fitted encoder table, and the external collaborators (classifier,
probability head, Gemini, whether the faculty-alert call raises). -/
structure Ctx where
  pipelineLoaded : Bool
  labelEncoderLoaded : Bool
  encTable : EncTable
  explainerLoaded : Bool
  predict : List Val → Except Unit ℤ
  predictProba : List Val → Except Unit (List ℚ)
  useMockMode : Bool
  gemini : Gemini
  alertFails : Bool

/-- Observable side effects of one request: whether the classifier was
invoked, how many times the faculty alert was triggered, and the log
lines emitted. -/
structure Effects where
  predictInvoked : Bool
  alertCalls : ℕ
  logs : List String
deriving DecidableEq

/-- The JSON response of the main `/api/predict` endpoint. -/
structure Response where
  httpCode : ℕ
  status : String
  error : Option String
  prediction : Option ℤ
  risk_category : Option String
  risk_descriptor : Option String
  confidence : Option ℚ
  probabilities : Option (List (String × ℚ))
  shap_values : Option (List Feature)
  mentoring_advice : Option String
deriving DecidableEq

/-- An error-shaped response body `{"error": ..., "status": ...}`. -/
def errorResponse (code : ℕ) (status error : String) : Response :=
  ⟨code, status, some error, none, none, none, none, none, none, none⟩

/-- `predict_risk` from `app/routes.py`, steps 1–7.  The dead re-check of
`label_encoder` inside step 2 (unreachable after the guard at the top of
the handler) is omitted; the grade-calculation `except` branch is
unreachable in the model because `estimate_g3` is total. -/
def predict_risk_main (ctx : Ctx) (isJson : Bool) (data : Req) :
    Response × Effects :=
  if ¬(ctx.pipelineLoaded ∧ ctx.labelEncoderLoaded) then
    (errorResponse 503 "service_unavailable"
      "Server initialization incomplete. Please try again in a moment.",
     ⟨false, 0, ["Models not loaded"]⟩)
  else if ¬isJson then
    (errorResponse 400 "validation_error" "Request must be JSON", ⟨false, 0, []⟩)
  else if data = [] then
    (errorResponse 400 "validation_error" "Empty request body", ⟨false, 0, []⟩)
  else
    match validate_student_data_main data with
    | Except.error e =>
      (errorResponse 400 "validation_error" e,
       ⟨false, 0, ["Validation failed: " ++ e]⟩)
    | Except.ok _ =>
      let data_for_pipeline := data.filter (fun kv => kv.1 ≠ "customPrompt")
      match preprocess_data_for_pipeline data_for_pipeline ctx.encTable with
      | Except.error col =>
        (errorResponse 500 "error" ("Data preprocessing error: \x27" ++ col ++ "\x27"),
         ⟨false, 0, ["Missing preprocessing column: \x27" ++ col ++ "\x27"]⟩)
      | Except.ok vec =>
        match ctx.predict vec with
        | Except.error _ =>
          (errorResponse 500 "error" "Prediction failed",
           ⟨true, 0, ["Model prediction error"]⟩)
        | Except.ok cls =>
          let risk_category := pyLower (risk_mapping cls)
          let pc := confidence_of (ctx.predictProba vec) cls
          let predicted_g3 := estimate_g3 cls pc.2
          let risk_descriptor := (map_risk_category predicted_g3).2
          let alertCalls := if risk_category = "high" then 1 else 0
          let alertLogs :=
            if risk_category = "high" ∧ ctx.alertFails then
              ["Faculty alert failed"]
            else []
          let shap := get_shap_feature_importance_main ctx.explainerLoaded
          let mentoring_advice := generate_mentoring_advice_main
            ctx.useMockMode ctx.gemini data predicted_g3 risk_category shap.1
          (⟨200, "success", none, some predicted_g3, some risk_category,
            some risk_descriptor, some pc.2, pc.1.map proba_payload,
            some shap.1, some mentoring_advice⟩,
           ⟨true, alertCalls, alertLogs ++ shap.2⟩)

/-- The process context of the student-risk-app variant (its SHAP backend
is live, so it is part of the context). -/
structure CtxSra where
  pipelineLoaded : Bool
  labelEncoderLoaded : Bool
  encTable : EncTable
  explainerLoaded : Bool
  shapBackend : Option ShapValues
  predict : List Val → Except Unit ℤ
  predictProba : List Val → Except Unit (List ℚ)
  gemini : Gemini

/-- The JSON response of the student-risk-app `/api/predict` endpoint
(no `status` key in this variant). -/
structure ResponseSra where
  httpCode : ℕ
  error : Option String
  prediction : Option ℤ
  risk_category : Option String
  risk_descriptor : Option String
  confidence : Option ℚ
  probabilities : Option (List (String × ℚ))
  shap_values : Option (List Feature)
  mentoring_advice : Option String
deriving DecidableEq

/-- An error-shaped student-risk-app response `{"error": ...}`. -/
def errorResponseSra (code : ℕ) (error : String) : ResponseSra :=
  ⟨code, some error, none, none, none, none, none, none, none⟩

/-- The `risk_descriptors` dictionary of the student-risk-app handler
with its `.get(risk_category, "Status unknown.")` default. -/
def sra_risk_descriptor (rc : String) : String :=
  if rc = "high" then "Requires immediate intervention and support."
  else if rc = "medium" then "Needs focused attention to improve academic trajectory."
  else if rc = "low" then "On track, but minor improvements can maximize potential."
  else "Status unknown."

/-- `predict_risk` from `student-risk-app/app/routes.py`.  Exceptions
from preprocessing or prediction reach the handler-wide generic `except`,
which answers 500; its message interpolates the exception text, modelled
here by the fixed prefix. -/
def predict_risk_sra (ctx : CtxSra) (data : Req) : ResponseSra :=
  if ¬ctx.pipelineLoaded then
    errorResponseSra 500
      "Machine Learning Models are not loaded. Please check server logs for pathing errors."
  else
    match validate_student_data_sra data with
    | Except.error ve => errorResponseSra 400 ("Invalid input: " ++ ve)
    | Except.ok _ =>
      if ¬ctx.labelEncoderLoaded then
        errorResponseSra 500 "Label encoder not loaded. Cannot preprocess data."
      else
        let data_for_pipeline := data.filter (fun kv => kv.1 ≠ "customPrompt")
        match preprocess_data_for_pipeline data_for_pipeline ctx.encTable with
        | Except.error _ =>
          errorResponseSra 500 "An unexpected error occurred during analysis: "
        | Except.ok vec =>
          match ctx.predict vec with
          | Except.error _ =>
            errorResponseSra 500 "An unexpected error occurred during analysis: "
          | Except.ok cls =>
            let risk_category := pyLower (risk_mapping cls)
            let pc := confidence_of (ctx.predictProba vec) cls
            let predicted_g3 := estimate_g3 cls pc.2
            let top := get_shap_feature_importance_sra ctx.explainerLoaded
              ctx.shapBackend cls expected_columns
            let advice := generate_mentoring_advice_sra ctx.gemini data
              predicted_g3 risk_category top.1
            ⟨200, none, some predicted_g3, some risk_category,
             some (sra_risk_descriptor risk_category), some pc.2,
             pc.1.map proba_payload, some top.1, some advice⟩

/-! ## Concrete fixtures for witnesses and counterexamples -/

/-- Modelled from the spec: the persisted `label_encoder.joblib` artifact
is not part of the source tree; this table gives each categorical field
the enumerated domain of the spec data model in `LabelEncoder` sorted
order.  It is only used to instantiate closed witnesses/counterexamples;
the quantified theorems range over arbitrary tables. -/
def the_enc_table : EncTable :=
  [("school", ["GP", "MS"]), ("sex", ["F", "M"]), ("address", ["R", "U"]),
   ("famsize", ["GT3", "LE3"]), ("Pstatus", ["A", "T"]),
   ("Mjob", ["at_home", "health", "other", "services", "teacher"]),
   ("Fjob", ["at_home", "health", "other", "services", "teacher"]),
   ("reason", ["course", "home", "other", "reputation"]),
   ("guardian", ["father", "mother", "other"]),
   ("schoolsup", ["no", "yes"]), ("famsup", ["no", "yes"]),
   ("paid", ["no", "yes"]), ("activities", ["no", "yes"]),
   ("nursery", ["no", "yes"]), ("higher", ["no", "yes"]),
   ("internet", ["no", "yes"]), ("romantic", ["no", "yes"])]

/-- A complete valid request, mirroring the `sample_student_data` fixture
of `tests/conftest.py` (numbers sent as JSON numbers). -/
def sample_request : Req :=
  [("age", Val.int 18), ("sex", Val.str "F"), ("school", Val.str "GP"),
   ("address", Val.str "U"), ("famsize", Val.str "LE3"),
   ("Pstatus", Val.str "T"), ("Medu", Val.int 4), ("Fedu", Val.int 3),
   ("Mjob", Val.str "other"), ("Fjob", Val.str "other"),
   ("reason", Val.str "course"), ("guardian", Val.str "mother"),
   ("traveltime", Val.int 2), ("studytime", Val.int 2),
   ("failures", Val.int 0), ("schoolsup", Val.str "yes"),
   ("famsup", Val.str "yes"), ("paid", Val.str "no"),
   ("activities", Val.str "yes"), ("nursery", Val.str "yes"),
   ("higher", Val.str "yes"), ("internet", Val.str "yes"),
   ("romantic", Val.str "no"), ("famrel", Val.int 4),
   ("freetime", Val.int 3), ("goout", Val.int 4), ("Dalc", Val.int 1),
   ("Walc", Val.int 1), ("health", Val.int 3), ("absences", Val.int 6),
   ("G1", Val.int 10), ("G2", Val.int 12),
   ("average_grade", Val.rat 11), ("grade_change", Val.int 2)]

/-- Drop a field from a request. -/
def dropField (r : Req) (k : String) : Req :=
  r.filter (fun kv => kv.1 ≠ k)

/-- A context in which every artifact loaded and every collaborator
behaves: the classifier returns a fixed class, probabilities are a fixed
vector. -/
def happyCtx (cls : ℤ) (ps : List ℚ) : Ctx :=
  ⟨true, true, the_enc_table, true,
   fun _ => Except.ok cls, fun _ => Except.ok ps,
   false, some (fun _ => Except.ok "Generated advice."), false⟩

/-- A healthy student-risk-app context. -/
def sraHappyCtx (cls : ℤ) (ps : List ℚ) : CtxSra :=
  ⟨true, true, the_enc_table, true, some (ShapValues.arr2 [[1, -2, 3]]),
   fun _ => Except.ok cls, fun _ => Except.ok ps,
   some (fun _ => Except.ok "Generated advice.")⟩

/-- A context whose Gemini backend raises on every call. -/
def failingGeminiCtx : Ctx :=
  { happyCtx 0 [7 / 10, 1 / 10, 2 / 10] with
    gemini := some (fun _ => Except.error ()) }

/-- The sample request with caller-chosen derived fields that disagree
with G1 = 10 and G2 = 12. -/
def cex_request : Req :=
  (sample_request.set "grade_change" (Val.int 99)).set "average_grade" (Val.int 0)

/-- The sample request with an out-of-domain categorical value. -/
def unknown_mjob_request : Req :=
  sample_request.set "Mjob" (Val.str "unknown_job")

/-- The encoded feature vector produced for `unknown_mjob_request` under
`the_enc_table` (Mjob, at position 8, is the default code 0). -/
def unknown_mjob_vec : List Val :=
  [Val.int 0, Val.int 0, Val.int 18, Val.int 1, Val.int 1, Val.int 1,
   Val.int 4, Val.int 3, Val.int 0, Val.int 2, Val.int 0, Val.int 1,
   Val.int 2, Val.int 2, Val.int 0, Val.int 1, Val.int 1, Val.int 0,
   Val.int 1, Val.int 1, Val.int 1, Val.int 1, Val.int 0, Val.int 4,
   Val.int 3, Val.int 4, Val.int 1, Val.int 1, Val.int 3, Val.int 6,
   Val.int 10, Val.int 12, Val.rat 11, Val.int 2]

/-- The encoded feature vector produced for `sample_request` itself under
`the_enc_table` (Mjob = "other" encodes to 2). -/
def sample_vec : List Val :=
  [Val.int 0, Val.int 0, Val.int 18, Val.int 1, Val.int 1, Val.int 1,
   Val.int 4, Val.int 3, Val.int 2, Val.int 2, Val.int 0, Val.int 1,
   Val.int 2, Val.int 2, Val.int 0, Val.int 1, Val.int 1, Val.int 0,
   Val.int 1, Val.int 1, Val.int 1, Val.int 1, Val.int 0, Val.int 4,
   Val.int 3, Val.int 4, Val.int 1, Val.int 1, Val.int 3, Val.int 6,
   Val.int 10, Val.int 12, Val.rat 11, Val.int 2]


/-- The success-path response of `predict_risk_main` (the steps 3–7
outcome), named so that theorems can refer to the single success shape.
Its body is syntactically the success branch of `predict_risk_main`. -/
def main_success_result (ctx : Ctx) (data : Req) (vec : List Val) (cls : ℤ) :
    Response × Effects :=
  let risk_category := pyLower (risk_mapping cls)
  let pc := confidence_of (ctx.predictProba vec) cls
  let predicted_g3 := estimate_g3 cls pc.2
  let risk_descriptor := (map_risk_category predicted_g3).2
  let alertCalls := if risk_category = "high" then 1 else 0
  let alertLogs :=
    if risk_category = "high" ∧ ctx.alertFails then ["Faculty alert failed"]
    else []
  let shap := get_shap_feature_importance_main ctx.explainerLoaded
  let mentoring_advice := generate_mentoring_advice_main ctx.useMockMode
    ctx.gemini data predicted_g3 risk_category shap.1
  (⟨200, "success", none, some predicted_g3, some risk_category,
    some risk_descriptor, some pc.2, pc.1.map proba_payload,
    some shap.1, some mentoring_advice⟩,
   ⟨true, alertCalls, alertLogs ++ shap.2⟩)

/-! ## Helper lemmas about rows, encoding, and preprocessing -/

theorem lookup_set_ne (r : Req) (k : String) (v : Val) (c : String)
    (h : c ≠ k) : (r.set k v).lookup c = r.lookup c := by
  induction r with
  | nil => rfl
  | cons a t ih =>
    unfold Req.set Req.lookup at *
    rw [List.map_cons]
    by_cases ha : a.1 = k
    · rw [if_pos ha]
      rw [List.find?_cons_of_neg _ (by simp; exact fun hh => h hh.symm),
          List.find?_cons_of_neg _ (by simp; exact fun hh => h (hh.symm.trans ha))]
      exact ih
    · rw [if_neg ha]
      by_cases hc : a.1 = c
      · rw [List.find?_cons_of_pos _ (by simp [hc]),
            List.find?_cons_of_pos _ (by simp [hc])]
      · rw [List.find?_cons_of_neg _ (by simp [hc]),
            List.find?_cons_of_neg _ (by simp [hc])]
        exact ih

theorem lookup_set_eq (r : Req) (k : String) (v : Val)
    (h : (r.lookup k).isSome) : (r.set k v).lookup k = some v := by
  induction r with
  | nil => simp [Req.lookup] at h
  | cons a t ih =>
    unfold Req.set Req.lookup at *
    rw [List.map_cons]
    by_cases ha : a.1 = k
    · rw [if_pos ha]
      rw [List.find?_cons_of_pos _ (by simp)]
      rfl
    · rw [if_neg ha]
      rw [List.find?_cons_of_neg _ (by simp [ha])]
      rw [List.find?_cons_of_neg _ (by simp [ha])] at h
      exact ih h

theorem hasKey_set (r : Req) (k : String) (v : Val) (c : String) :
    (r.set k v).hasKey c = r.hasKey c := by
  induction r with
  | nil => rfl
  | cons a t ih =>
    unfold Req.set Req.hasKey Req.lookup at *
    rw [List.map_cons]
    by_cases ha : a.1 = k
    · rw [if_pos ha]
      by_cases hc : k = c
      · rw [List.find?_cons_of_pos _ (by simp [hc]),
            List.find?_cons_of_pos _ (by simp [ha, hc])]
        rfl
      · rw [List.find?_cons_of_neg _ (by simp [hc]),
            List.find?_cons_of_neg _ (by simp; intro hh; exact hc (ha.symm.trans hh))]
        exact ih
    · rw [if_neg ha]
      by_cases hc : a.1 = c
      · rw [List.find?_cons_of_pos _ (by simp [hc]),
            List.find?_cons_of_pos _ (by simp [hc])]
      · rw [List.find?_cons_of_neg _ (by simp [hc]),
            List.find?_cons_of_neg _ (by simp [hc])]
        exact ih

theorem lookup_foldl_not_mem (enc : EncTable) (cols : List String) (c : String)
    (h : c ∉ cols) : ∀ (r : Req),
    (cols.foldl (fun r col =>
      match r.lookup col, enc.classesOf col with
      | some raw, some classes => r.set col (encodeCell classes raw)
      | _, _ => r) r).lookup c = r.lookup c := by
  induction cols with
  | nil => intro r; rfl
  | cons col rest ih =>
    intro r
    have hc : c ≠ col := fun hh => h (hh ▸ List.mem_cons_self col rest)
    have hrest : c ∉ rest := fun hh => h (List.mem_cons_of_mem col hh)
    rw [List.foldl_cons, ih hrest]
    cases hl : r.lookup col with
    | none => simp [hl]
    | some raw =>
      cases he : enc.classesOf col with
      | none => simp [hl, he]
      | some classes =>
        simp only [hl, he]
        exact lookup_set_ne r col _ c hc

theorem hasKey_foldl (enc : EncTable) (cols : List String) (c : String) :
    ∀ (r : Req),
    (cols.foldl (fun r col =>
      match r.lookup col, enc.classesOf col with
      | some raw, some classes => r.set col (encodeCell classes raw)
      | _, _ => r) r).hasKey c = r.hasKey c := by
  induction cols with
  | nil => intro r; rfl
  | cons col rest ih =>
    intro r
    rw [List.foldl_cons, ih]
    cases hl : r.lookup col with
    | none => simp [hl]
    | some raw =>
      cases he : enc.classesOf col with
      | none => simp [hl, he]
      | some classes =>
        simp only [hl, he]
        exact hasKey_set r col _ c

theorem lookup_foldl_mem (enc : EncTable) :
    ∀ (cols : List String) (r : Req) (k : String) (raw : Val) (cs : List String),
    k ∈ cols → cols.Nodup → r.lookup k = some raw → enc.classesOf k = some cs →
    (cols.foldl (fun r col =>
      match r.lookup col, enc.classesOf col with
      | some raw, some classes => r.set col (encodeCell classes raw)
      | _, _ => r) r).lookup k = some (encodeCell cs raw) := by
  intro cols
  induction cols with
  | nil => intro r k raw cs hmem; exact absurd hmem (List.not_mem_nil k)
  | cons col rest ih =>
    intro r k raw cs hmem hnodup hl he
    rw [List.foldl_cons]
    by_cases hk : k = col
    · subst hk
      have hstep : (match r.lookup k, enc.classesOf k with
          | some raw, some classes => r.set k (encodeCell classes raw)
          | _, _ => r) = r.set k (encodeCell cs raw) := by
        simp [hl, he]
      rw [hstep]
      have hrest : k ∉ rest := (List.nodup_cons.mp hnodup).1
      rw [lookup_foldl_not_mem enc rest k hrest]
      exact lookup_set_eq r k _ (by rw [hl]; rfl)
    · have hmem2 : k ∈ rest := by
        rcases List.mem_cons.mp hmem with h1 | h1
        · exact absurd h1 hk
        · exact h1
      have hstep : (match r.lookup col, enc.classesOf col with
          | some raw, some classes => r.set col (encodeCell classes raw)
          | _, _ => r).lookup k = some raw := by
        cases hl2 : r.lookup col with
        | none => simp [hl2]; exact hl
        | some raw2 =>
          cases he2 : enc.classesOf col with
          | none => simp [hl2, he2]; exact hl
          | some cs2 =>
            simp only [hl2, he2]
            rw [lookup_set_ne r col _ k hk]
            exact hl
      exact ih _ k raw cs hmem2 (List.nodup_cons.mp hnodup).2 hstep he

theorem selectColumns_get :
    ∀ (cols : List String) (row : Req) (vec : List Val),
    selectColumns row cols = Except.ok vec →
    ∀ (i : ℕ) (c : String), cols.get? i = some c → vec.get? i = row.lookup c := by
  intro cols
  induction cols with
  | nil => intro row vec h i c hc; simp at hc
  | cons c0 rest ih =>
    intro row vec h i c hc
    unfold selectColumns at h
    cases hl : row.lookup c0 with
    | none => rw [hl] at h; exact absurd h (by simp)
    | some v =>
      rw [hl] at h
      cases hr : selectColumns row rest with
      | error e => rw [hr] at h; exact absurd h (by simp)
      | ok vs =>
        rw [hr] at h
        have hv : vec = v :: vs := by cases h; rfl
        subst hv
        cases i with
        | zero =>
          simp only [List.get?] at hc
          cases hc
          simp only [List.get?]
          exact hl.symm
        | succ n =>
          simp only [List.get?] at hc ⊢
          exact ih row vs hr n c hc

theorem selectColumns_ok :
    ∀ (cols : List String) (row : Req),
    (∀ c ∈ cols, (row.lookup c).isSome) →
    ∃ vec, selectColumns row cols = Except.ok vec := by
  intro cols
  induction cols with
  | nil => intro row _; exact ⟨[], rfl⟩
  | cons c0 rest ih =>
    intro row hall
    have h0 := hall c0 (List.mem_cons_self c0 rest)
    cases hl : row.lookup c0 with
    | none => rw [hl] at h0; exact absurd h0 (by simp)
    | some v =>
      obtain ⟨vs, hvs⟩ := ih row (fun c hc => hall c (List.mem_cons_of_mem c0 hc))
      exact ⟨v :: vs, by unfold selectColumns; rw [hl, hvs]⟩

theorem lookup_encodeRow_not_mem (row : Req) (enc : EncTable) (c : String)
    (h : c ∉ categorical_cols) :
    (encodeRow row enc).lookup c = row.lookup c :=
  lookup_foldl_not_mem enc categorical_cols c h row

theorem hasKey_encodeRow (row : Req) (enc : EncTable) (c : String) :
    (encodeRow row enc).hasKey c = row.hasKey c :=
  hasKey_foldl enc categorical_cols c row

theorem lookup_encodeRow_mem (row : Req) (enc : EncTable) (k : String)
    (raw : Val) (cs : List String) (hmem : k ∈ categorical_cols)
    (hl : row.lookup k = some raw) (he : enc.classesOf k = some cs) :
    (encodeRow row enc).lookup k = some (encodeCell cs raw) :=
  lookup_foldl_mem enc categorical_cols row k raw cs hmem (by decide) hl he

theorem preprocess_ok (row : Req) (enc : EncTable)
    (hall : ∀ c ∈ expected_columns, row.hasKey c) :
    ∃ vec, preprocess_data_for_pipeline row enc = Except.ok vec := by
  apply selectColumns_ok
  intro c hc
  show ((encodeRow row enc).lookup c).isSome = true
  have h2 : (encodeRow row enc).hasKey c = true := by
    rw [hasKey_encodeRow]; exact hall c hc
  exact h2

/-! ## Helper lemmas about the orchestration paths -/

theorem validate_main_missing (data : Req) (f : String)
    (hmem : f ∈ required_fields) (hmiss : data.hasKey f = false) :
    ∃ e, validate_student_data_main data = Except.error e := by
  have hfilter : required_fields.filter (fun f => !(data.hasKey f)) ≠ [] := by
    intro hnil
    rw [List.filter_eq_nil_iff] at hnil
    have h4 := hnil f hmem
    simp [hmiss] at h4
  refine ⟨"Missing required fields: " ++
    ", ".intercalate (required_fields.filter (fun f => !(data.hasKey f))), ?_⟩
  unfold validate_student_data_main
  rw [if_pos hfilter]

theorem predict_risk_main_validation_error (ctx : Ctx) (data : Req) (e : String)
    (h1 : ctx.pipelineLoaded = true) (h2 : ctx.labelEncoderLoaded = true)
    (hd : data ≠ [])
    (hv : validate_student_data_main data = Except.error e) :
    predict_risk_main ctx true data =
      (errorResponse 400 "validation_error" e,
       ⟨false, 0, ["Validation failed: " ++ e]⟩) := by
  unfold predict_risk_main
  rw [if_neg (by simp [h1, h2]), if_neg (by simp), if_neg hd, hv]

theorem predict_risk_main_eq_success (ctx : Ctx) (data : Req) (vec : List Val)
    (cls : ℤ)
    (h1 : ctx.pipelineLoaded = true) (h2 : ctx.labelEncoderLoaded = true)
    (hd : data ≠ [])
    (hv : validate_student_data_main data = Except.ok ())
    (hp : preprocess_data_for_pipeline (data.filter (fun kv => kv.1 ≠ "customPrompt"))
        ctx.encTable = Except.ok vec)
    (hc : ctx.predict vec = Except.ok cls) :
    predict_risk_main ctx true data = main_success_result ctx data vec cls := by
  unfold predict_risk_main main_success_result
  rw [if_neg (by simp [h1, h2]), if_neg (by simp), if_neg hd]
  simp only [hv, hp, hc]

/-! ## Grade estimation lemmas -/

theorem interp_mem {lo hi : ℤ} (hle : lo ≤ hi) {c : ℚ} (h0 : 0 ≤ c) (h1 : c ≤ 1) :
    (lo : ℚ) ≤ (lo : ℚ) + ((hi : ℚ) - (lo : ℚ)) * c ∧
    (lo : ℚ) + ((hi : ℚ) - (lo : ℚ)) * c ≤ (hi : ℚ) := by
  have hlh : (lo : ℚ) ≤ (hi : ℚ) := by exact_mod_cast hle
  constructor <;> nlinarith

theorem grade_ranges_le (cls : ℤ) :
    (grade_ranges cls).1 ≤ (grade_ranges cls).2 := by
  unfold grade_ranges
  split_ifs <;> norm_num

theorem estimate_g3_bounds (cls : ℤ) (conf : ℚ) (h0 : 0 ≤ conf) (h1 : conf ≤ 1) :
    (grade_ranges cls).1 ≤ estimate_g3 cls conf ∧
    estimate_g3 cls conf ≤ (grade_ranges cls).2 := by
  obtain ⟨ha, hb⟩ := interp_mem (grade_ranges_le cls) h0 h1
  exact pyRound_bounds ha hb

/-! ## Claim theorems -/

/-- C4: for every predicted class id (0 = High, 1 = Low, 2 = Medium) and
every class confidence c in [0, 1], the estimated grade equals
`round(lo + (hi - lo) * c)` over the fixed sub-ranges High → (0, 9),
Medium → (10, 13), Low → (14, 20); hence `0 ≤ estimated_grade ≤ 20` and
the estimate lies in the predicted class sub-range; and when
`predict_proba` raises, the confidence defaults to 0.5 with no
probability payload. -/
theorem grade_estimator_formula_bounds (cls : ℤ) (conf : ℚ)
    (hcls : cls = 0 ∨ cls = 1 ∨ cls = 2) (h0 : 0 ≤ conf) (h1 : conf ≤ 1) :
    estimate_g3 cls conf =
      pyRound (((grade_ranges cls).1 : ℚ) +
        (((grade_ranges cls).2 : ℚ) - ((grade_ranges cls).1 : ℚ)) * conf) ∧
    (risk_mapping cls = "High" →
      grade_ranges cls = (0, 9) ∧ 0 ≤ estimate_g3 cls conf ∧
        estimate_g3 cls conf ≤ 9) ∧
    (risk_mapping cls = "Medium" →
      grade_ranges cls = (10, 13) ∧ 10 ≤ estimate_g3 cls conf ∧
        estimate_g3 cls conf ≤ 13) ∧
    (risk_mapping cls = "Low" →
      grade_ranges cls = (14, 20) ∧ 14 ≤ estimate_g3 cls conf ∧
        estimate_g3 cls conf ≤ 20) ∧
    0 ≤ estimate_g3 cls conf ∧ estimate_g3 cls conf ≤ 20 ∧
    confidence_of (Except.error ()) cls = (none, 1 / 2) := by
  obtain ⟨hlo, hhi⟩ := estimate_g3_bounds cls conf h0 h1
  rcases hcls with h | h | h <;> subst h
  · have e1 : (0 : ℤ) ≤ estimate_g3 0 conf := by simpa [grade_ranges] using hlo
    have e2 : estimate_g3 0 conf ≤ 9 := by simpa [grade_ranges] using hhi
    exact ⟨rfl, fun _ => ⟨rfl, e1, e2⟩, fun hh => absurd hh (by decide),
      fun hh => absurd hh (by decide), by omega, by omega, rfl⟩
  · have e1 : (14 : ℤ) ≤ estimate_g3 1 conf := by simpa [grade_ranges] using hlo
    have e2 : estimate_g3 1 conf ≤ 20 := by simpa [grade_ranges] using hhi
    exact ⟨rfl, fun hh => absurd hh (by decide), fun hh => absurd hh (by decide),
      fun _ => ⟨rfl, e1, e2⟩, by omega, by omega, rfl⟩
  · have e1 : (10 : ℤ) ≤ estimate_g3 2 conf := by simpa [grade_ranges] using hlo
    have e2 : estimate_g3 2 conf ≤ 13 := by simpa [grade_ranges] using hhi
    exact ⟨rfl, fun hh => absurd hh (by decide), fun _ => ⟨rfl, e1, e2⟩,
      fun hh => absurd hh (by decide), by omega, by omega, rfl⟩

/-- Witness for C4 at class 0 (High) and confidence 1/2. -/
theorem grade_estimator_formula_bounds_witness :
    ((0 : ℤ) = 0 ∨ (0 : ℤ) = 1 ∨ (0 : ℤ) = 2) ∧ (0 : ℚ) ≤ 1 / 2 ∧ (1 / 2 : ℚ) ≤ 1 ∧
    (estimate_g3 0 (1 / 2) =
      pyRound (((grade_ranges 0).1 : ℚ) +
        (((grade_ranges 0).2 : ℚ) - ((grade_ranges 0).1 : ℚ)) * (1 / 2)) ∧
    (risk_mapping 0 = "High" →
      grade_ranges 0 = (0, 9) ∧ 0 ≤ estimate_g3 0 (1 / 2) ∧
        estimate_g3 0 (1 / 2) ≤ 9) ∧
    (risk_mapping 0 = "Medium" →
      grade_ranges 0 = (10, 13) ∧ 10 ≤ estimate_g3 0 (1 / 2) ∧
        estimate_g3 0 (1 / 2) ≤ 13) ∧
    (risk_mapping 0 = "Low" →
      grade_ranges 0 = (14, 20) ∧ 14 ≤ estimate_g3 0 (1 / 2) ∧
        estimate_g3 0 (1 / 2) ≤ 20) ∧
    0 ≤ estimate_g3 0 (1 / 2) ∧ estimate_g3 0 (1 / 2) ≤ 20 ∧
    confidence_of (Except.error ()) 0 = (none, 1 / 2)) :=
  ⟨Or.inl rfl, by norm_num, by norm_num,
   grade_estimator_formula_bounds 0 (1 / 2) (Or.inl rfl) (by norm_num) (by norm_num)⟩

/-- C10: for every class id in {0, 1, 2} and confidence in [0, 1] the
estimated grade falls in the part of the 0–20 scale that
`map_risk_category` maps back to the same tier, so the success response
pairs `risk_descriptor` and `risk_category` consistently: both are the
two components of `map_risk_category` at the same estimated grade. -/
theorem risk_descriptor_matches_category (cls : ℤ) (conf : ℚ)
    (hcls : cls = 0 ∨ cls = 1 ∨ cls = 2) (h0 : 0 ≤ conf) (h1 : conf ≤ 1) :
    (map_risk_category (estimate_g3 cls conf)).1 = pyLower (risk_mapping cls) ∧
    (∀ (ctx : Ctx) (data : Req) (vec : List Val),
      (confidence_of (ctx.predictProba vec) cls).2 = conf →
      (main_success_result ctx data vec cls).1.risk_category =
        some ((map_risk_category (estimate_g3 cls conf)).1) ∧
      (main_success_result ctx data vec cls).1.risk_descriptor =
        some ((map_risk_category (estimate_g3 cls conf)).2)) := by
  obtain ⟨hlo, hhi⟩ := estimate_g3_bounds cls conf h0 h1
  have hfst : (map_risk_category (estimate_g3 cls conf)).1 =
      pyLower (risk_mapping cls) := by
    rcases hcls with h | h | h <;> subst h
    · have e2 : estimate_g3 0 conf ≤ 9 := by simpa [grade_ranges] using hhi
      unfold map_risk_category
      rw [if_pos (by omega)]
      rfl
    · have e1 : (14 : ℤ) ≤ estimate_g3 1 conf := by simpa [grade_ranges] using hlo
      unfold map_risk_category
      rw [if_neg (by omega), if_neg (by omega)]
      rfl
    · have e1 : (10 : ℤ) ≤ estimate_g3 2 conf := by simpa [grade_ranges] using hlo
      have e2 : estimate_g3 2 conf ≤ 13 := by simpa [grade_ranges] using hhi
      unfold map_risk_category
      rw [if_neg (by omega), if_pos (by exact ⟨e1, e2⟩)]
      rfl
  refine ⟨hfst, fun ctx data vec hconf => ⟨?_, ?_⟩⟩
  · show some (pyLower (risk_mapping cls)) = _
    rw [hfst]
  · show some ((map_risk_category (estimate_g3 cls
      (confidence_of (ctx.predictProba vec) cls).2)).2) = _
    rw [hconf]

/-- Witness for C10 at class 2 (Medium), confidence 1/2, with a concrete
context whose probability head returns [0.1, 0.1, 0.8]. -/
theorem risk_descriptor_matches_category_witness :
    ((2 : ℤ) = 0 ∨ (2 : ℤ) = 1 ∨ (2 : ℤ) = 2) ∧
    (0 : ℚ) ≤ 4 / 5 ∧ (4 / 5 : ℚ) ≤ 1 ∧
    ((map_risk_category (estimate_g3 2 (4 / 5))).1 = pyLower (risk_mapping 2) ∧
    (∀ (ctx : Ctx) (data : Req) (vec : List Val),
      (confidence_of (ctx.predictProba vec) 2).2 = 4 / 5 →
      (main_success_result ctx data vec 2).1.risk_category =
        some ((map_risk_category (estimate_g3 2 (4 / 5))).1) ∧
      (main_success_result ctx data vec 2).1.risk_descriptor =
        some ((map_risk_category (estimate_g3 2 (4 / 5))).2))) :=
  ⟨Or.inr (Or.inr rfl), by norm_num, by norm_num,
   risk_descriptor_matches_category 2 (4 / 5) (Or.inr (Or.inr rfl))
     (by norm_num) (by norm_num)⟩

theorem computedTop5_sorted (names : List String) (cvs : List ℚ) :
    (computedTop5 names cvs).Pairwise absDesc ∧
    (computedTop5 names cvs).length ≤ 5 := by
  constructor
  · unfold computedTop5
    rw [List.pairwise_map]
    have hs : (List.insertionSort absDesc (names.zip cvs)).Pairwise absDesc :=
      List.sorted_insertionSort absDesc _
    exact hs.sublist (List.take_sublist 5 _)
  · unfold computedTop5
    rw [List.length_map]
    exact List.length_take_le 5 _

/-- C8: every attribution list either variant can return — the computed
top-5 of the student-risk-app variant, its two fallback lists, and the
main variant fallback — is sorted by descending absolute importance
(`absDesc`) and never longer than the cap of 5. -/
theorem attribution_sorted_capped :
    (∀ (loaded : Bool) (backend : Option ShapValues) (cls : ℤ) (names : List String),
      (get_shap_feature_importance_sra loaded backend cls names).1.Pairwise absDesc ∧
      (get_shap_feature_importance_sra loaded backend cls names).1.length ≤ 5) ∧
    (∀ loaded : Bool,
      (get_shap_feature_importance_main loaded).1.Pairwise absDesc ∧
      (get_shap_feature_importance_main loaded).1.length ≤ 5) := by
  constructor
  · intro loaded backend cls names
    cases loaded with
    | false =>
      have he : get_shap_feature_importance_sra false backend cls names =
          (fallback_sra_full, []) := by
        unfold get_shap_feature_importance_sra
        simp
      rw [he]
      exact ⟨by norm_num [fallback_sra_full, List.pairwise_cons, absDesc, qAbs],
        by decide⟩
    | true =>
      cases backend with
      | none =>
        have he : get_shap_feature_importance_sra true none cls names =
            (fallback_sra_error, ["SHAP calculation error"]) := by
          unfold get_shap_feature_importance_sra
          simp
        rw [he]
        exact ⟨by norm_num [fallback_sra_error, List.pairwise_cons, absDesc, qAbs],
          by decide⟩
      | some v =>
        cases hn : normalizeShap v cls with
        | none =>
          have he : get_shap_feature_importance_sra true (some v) cls names =
              (fallback_sra_error, ["SHAP calculation error"]) := by
            unfold get_shap_feature_importance_sra
            simp [hn]
          rw [he]
          exact ⟨by norm_num [fallback_sra_error, List.pairwise_cons, absDesc, qAbs],
            by decide⟩
        | some cvs =>
          have he : get_shap_feature_importance_sra true (some v) cls names =
              (computedTop5 names cvs, []) := by
            unfold get_shap_feature_importance_sra
            simp [hn]
          rw [he]
          exact computedTop5_sorted names cvs
  · intro loaded
    have he : (get_shap_feature_importance_main loaded).1 = fallback_features := by
      cases loaded <;> rfl
    rw [he]
    exact ⟨by norm_num [fallback_features, List.pairwise_cons, absDesc, qAbs],
      by decide⟩

/-- C3: in the student-risk-app variant, whenever the explainer is loaded
and the SHAP backend returns values whose shape normalises for the
predicted class, the returned list is the computed top-5 for that input
row and class (no fallback, no degradation log); the fallback lists are
returned exactly when the backend raises or the shape cannot be
normalised, and that substitution is logged.  In the main variant,
computed mode is statically disabled: every call returns the fallback
with an explicit log line naming the branch taken. -/
theorem shap_computed_when_available :
    (∀ (v : ShapValues) (cls : ℤ) (names : List String) (cvs : List ℚ),
      normalizeShap v cls = some cvs →
      get_shap_feature_importance_sra true (some v) cls names =
        (computedTop5 names cvs, [])) ∧
    (∀ (cls : ℤ) (names : List String),
      get_shap_feature_importance_sra true none cls names =
        (fallback_sra_error, ["SHAP calculation error"])) ∧
    (∀ (v : ShapValues) (cls : ℤ) (names : List String),
      normalizeShap v cls = none →
      get_shap_feature_importance_sra true (some v) cls names =
        (fallback_sra_error, ["SHAP calculation error"])) ∧
    (∀ loaded : Bool, get_shap_feature_importance_main loaded =
      (fallback_features,
       if loaded then
         ["Skipping SHAP calculation to avoid memory exhaustion on low-resource environments"]
       else ["SHAP explainer not loaded, using fallback features"])) := by
  refine ⟨?_, ?_, ?_, ?_⟩
  · intro v cls names cvs hn
    unfold get_shap_feature_importance_sra
    simp [hn]
  · intro cls names
    unfold get_shap_feature_importance_sra
    simp
  · intro v cls names hn
    unfold get_shap_feature_importance_sra
    simp [hn]
  · intro loaded
    cases loaded <;> rfl

/-- Witness for C3: a concrete (samples, features) SHAP array for class 0
is normalised and returned as the computed top-5, not a fallback. -/
theorem shap_computed_when_available_witness :
    normalizeShap (ShapValues.arr2 [[1, -2, 3]]) 0 = some [1, -2, 3] ∧
    get_shap_feature_importance_sra true (some (ShapValues.arr2 [[1, -2, 3]])) 0
      ["G1", "G2", "failures"] =
      (computedTop5 ["G1", "G2", "failures"] [1, -2, 3], []) :=
  ⟨rfl, shap_computed_when_available.1 (ShapValues.arr2 [[1, -2, 3]]) 0
    ["G1", "G2", "failures"] [1, -2, 3] rfl⟩

/-- C5 counterexample: age 25 is outside the spec bound [15, 22], yet the
main validator accepts the request outright and the prediction succeeds,
so validation does not accept an age iff it lies in [15, 22]. -/
theorem age_bounds_counterexample :
    validate_student_data_main (sample_request.set "age" (Val.int 25)) =
      Except.ok () ∧
    ¬(15 ≤ (25 : ℤ) ∧ (25 : ℤ) ≤ 22) ∧
    (predict_risk_main (happyCtx 0 [7 / 10, 1 / 10, 2 / 10]) true
      (sample_request.set "age" (Val.int 25))).1.status = "success" :=
  ⟨rfl, by norm_num, rfl⟩

/-- C5 amended: the main app accepts an age value iff it lies in
[15, 30] — age 50 is rejected before any model work with a
`validation_error` whose message cites the 15–30 range — while the
student-risk-app variant accepts an age iff it lies in the spec range
[15, 22]. -/
theorem age_validation_bounds :
    (∀ a : ℤ,
      validate_student_data_main (sample_request.set "age" (Val.int a)) =
        Except.ok () ↔ (15 ≤ a ∧ a ≤ 30)) ∧
    (∀ a : ℤ,
      validate_student_data_sra (sample_request.set "age" (Val.int a)) =
        Except.ok () ↔ (15 ≤ a ∧ a ≤ 22)) ∧
    ((predict_risk_main (happyCtx 0 [7 / 10, 1 / 10, 2 / 10]) true
        (sample_request.set "age" (Val.int 50))).1 =
      errorResponse 400 "validation_error"
        "Invalid numeric values: Age must be between 15 and 30" ∧
     (predict_risk_main (happyCtx 0 [7 / 10, 1 / 10, 2 / 10]) true
        (sample_request.set "age" (Val.int 50))).2.predictInvoked = false) := by
  refine ⟨fun a => ?_, fun a => ?_, rfl, rfl⟩
  · have e : validate_student_data_main (sample_request.set "age" (Val.int a)) =
        (if ¬(15 ≤ a ∧ a ≤ 30) then
          Except.error "Invalid numeric values: Age must be between 15 and 30"
        else Except.ok ()) := rfl
    rw [e]
    by_cases h : 15 ≤ a ∧ a ≤ 30
    · rw [if_neg (not_not_intro h)]
      simp [h]
    · rw [if_pos h]
      simp [h]
  · by_cases h : 15 ≤ a ∧ a ≤ 22
    · have e : validate_student_data_sra (sample_request.set "age" (Val.int a)) =
          Except.ok () := by
        simp [validate_student_data_sra, checkNumericSra, checkCategoricalSra,
          sample_request, Req.set, Req.lookup, Req.hasKey, Req.getD, pyInt, pyStr,
          required_fields, sra_validations, sra_categorical_validations,
          pyListRepr, h.1, h.2]
      rw [e]
      simp [h]
    · have e : validate_student_data_sra (sample_request.set "age" (Val.int a)) =
          Except.error ("Age must be between 15 and 22. Received: " ++ toString a) := by
        simp [validate_student_data_sra, checkNumericSra, checkCategoricalSra,
          sample_request, Req.set, Req.lookup, Req.hasKey, Req.getD, pyInt, pyStr,
          required_fields, sra_validations, sra_categorical_validations,
          pyListRepr, h]
        rfl
      rw [e]
      simp [h]

/-- Witness for C5 amended at the two upper bounds: age 30 passes the
main validator, age 22 passes the student-risk-app validator. -/
theorem age_validation_bounds_witness :
    validate_student_data_main (sample_request.set "age" (Val.int 30)) =
      Except.ok () ∧
    validate_student_data_sra (sample_request.set "age" (Val.int 22)) =
      Except.ok () :=
  ⟨(age_validation_bounds.1 30).mpr (by norm_num),
   (age_validation_bounds.2.1 22).mpr (by norm_num)⟩

/-- C1 counterexample: with G1 = 10 and G2 = 12 the request supplies
grade_change = 99 and average_grade = 0; preprocessing hands exactly
those caller values to the model (positions 33 and 32 of the feature
vector) instead of recomputing G2 - G1 = 2 and (G1 + G2) / 2 = 11. -/
theorem derived_fields_counterexample :
    cex_request.lookup "G1" = some (Val.int 10) ∧
    cex_request.lookup "G2" = some (Val.int 12) ∧
    (preprocess_data_for_pipeline
        (cex_request.filter (fun kv => kv.1 ≠ "customPrompt"))
        the_enc_table).map (fun v => (v.get? 33, v.get? 32)) =
      Except.ok (some (Val.int 99), some (Val.int 0)) ∧
    Val.int 99 ≠ Val.int (12 - 10) ∧
    Val.int 0 ≠ Val.rat ((10 + 12) / 2) :=
  ⟨rfl, rfl, rfl, by decide, by decide⟩

/-- C1 amended: the model-input values of grade_change and average_grade
are taken verbatim from the caller-supplied fields of those names — for
any encoder table and any request carrying them, the preprocessed vector
holds the caller values at positions 33 and 32 — and requests omitting
them fail preprocessing with a `KeyError`; they are never recomputed from
G1 and G2 in the serving path (only the offline training script derives
them). -/
theorem derived_fields_taken_from_caller (row : Req) (enc : EncTable)
    (v w : Val)
    (hall : ∀ c ∈ expected_columns, row.hasKey c = true)
    (hg : row.lookup "grade_change" = some v)
    (ha : row.lookup "average_grade" = some w) :
    (∃ vec, preprocess_data_for_pipeline row enc = Except.ok vec ∧
      vec.get? 33 = some v ∧ vec.get? 32 = some w) ∧
    preprocess_data_for_pipeline
      (dropField sample_request "grade_change") the_enc_table =
      Except.error "grade_change" := by
  constructor
  · obtain ⟨vec, hvec⟩ := preprocess_ok row enc (fun c hc => hall c hc)
    refine ⟨vec, hvec, ?_, ?_⟩
    · rw [selectColumns_get expected_columns _ vec hvec 33 "grade_change" rfl,
        lookup_encodeRow_not_mem row enc _ (by decide)]
      exact hg
    · rw [selectColumns_get expected_columns _ vec hvec 32 "average_grade" rfl,
        lookup_encodeRow_not_mem row enc _ (by decide)]
      exact ha
  · rfl

/-- Witness for C1 amended at the concrete counterexample request. -/
theorem derived_fields_taken_from_caller_witness :
    (∀ c ∈ expected_columns, cex_request.hasKey c = true) ∧
    cex_request.lookup "grade_change" = some (Val.int 99) ∧
    cex_request.lookup "average_grade" = some (Val.int 0) ∧
    ((∃ vec, preprocess_data_for_pipeline cex_request the_enc_table =
        Except.ok vec ∧
      vec.get? 33 = some (Val.int 99) ∧ vec.get? 32 = some (Val.int 0)) ∧
    preprocess_data_for_pipeline
      (dropField sample_request "grade_change") the_enc_table =
      Except.error "grade_change") :=
  ⟨by decide, rfl, rfl,
   derived_fields_taken_from_caller cex_request the_enc_table
     (Val.int 99) (Val.int 0) (by decide) rfl rfl⟩

/-- C2 counterexample: in the student-risk-app variant a request with
Mjob = "unknown_job" is rejected by validation with a 400 response
before any encoding or prediction, contradicting "the pipeline does not
reject the request ... and the prediction still succeeds" as a statement
about every variant. -/
theorem unknown_categorical_rejected_counterexample :
    validate_student_data_sra unknown_mjob_request =
      Except.error
        "Mjob must be one of [\x27teacher\x27, \x27health\x27, \x27services\x27, \x27at_home\x27, \x27other\x27]. Received: unknown_job" ∧
    predict_risk_sra (sraHappyCtx 0 [7 / 10, 1 / 10, 2 / 10]) unknown_mjob_request =
      errorResponseSra 400
        "Invalid input: Mjob must be one of [\x27teacher\x27, \x27health\x27, \x27services\x27, \x27at_home\x27, \x27other\x27]. Received: unknown_job" :=
  ⟨rfl, rfl⟩

/-- C2 amended: in the main app, a categorical value outside the fitted
domain passes validation (only school and sex get character checks), is
encoded to the default code 0, and the prediction succeeds with a
success response; in the student-risk-app variant such a request is
instead rejected with a 400 validation error before encoding. -/
theorem unknown_categorical_default_code (ctx : Ctx) (data : Req)
    (vec : List Val) (cls : ℤ) (v : String) (cs : List String)
    (h1 : ctx.pipelineLoaded = true) (h2 : ctx.labelEncoderLoaded = true)
    (hd : data ≠ [])
    (hv : validate_student_data_main data = Except.ok ())
    (hm : Req.lookup (data.filter (fun kv => kv.1 ≠ "customPrompt")) "Mjob" =
      some (Val.str v))
    (he : ctx.encTable.classesOf "Mjob" = some cs)
    (hout : cs.contains v = false)
    (hp : preprocess_data_for_pipeline
        (data.filter (fun kv => kv.1 ≠ "customPrompt")) ctx.encTable =
      Except.ok vec)
    (hc : ctx.predict vec = Except.ok cls) :
    vec.get? 8 = some (Val.int 0) ∧
    (predict_risk_main ctx true data).1.status = "success" ∧
    (predict_risk_main ctx true data).1.httpCode = 200 := by
  refine ⟨?_, ?_, ?_⟩
  · rw [selectColumns_get expected_columns _ vec hp 8 "Mjob" rfl,
      lookup_encodeRow_mem _ _ "Mjob" (Val.str v) cs (by decide) hm he]
    simp only [encodeCell]
    rw [if_neg (by simpa using hout)]
  · rw [predict_risk_main_eq_success ctx data vec cls h1 h2 hd hv hp hc]
    rfl
  · rw [predict_risk_main_eq_success ctx data vec cls h1 h2 hd hv hp hc]
    rfl

/-- Witness for C2 amended: Mjob = "unknown_job" against the modelled
fitted table is encoded to 0 and the request succeeds end to end. -/
theorem unknown_categorical_default_code_witness :
    unknown_mjob_request ≠ [] ∧
    validate_student_data_main unknown_mjob_request = Except.ok () ∧
    Req.lookup (unknown_mjob_request.filter (fun kv => kv.1 ≠ "customPrompt"))
      "Mjob" = some (Val.str "unknown_job") ∧
    the_enc_table.classesOf "Mjob" =
      some ["at_home", "health", "other", "services", "teacher"] ∧
    (["at_home", "health", "other", "services", "teacher"].contains "unknown_job") = false ∧
    preprocess_data_for_pipeline
      (unknown_mjob_request.filter (fun kv => kv.1 ≠ "customPrompt"))
      the_enc_table = Except.ok unknown_mjob_vec ∧
    (unknown_mjob_vec.get? 8 = some (Val.int 0) ∧
     (predict_risk_main (happyCtx 0 [7 / 10, 1 / 10, 2 / 10]) true
        unknown_mjob_request).1.status = "success" ∧
     (predict_risk_main (happyCtx 0 [7 / 10, 1 / 10, 2 / 10]) true
        unknown_mjob_request).1.httpCode = 200) :=
  ⟨by decide, rfl, rfl, rfl, rfl, rfl,
   unknown_categorical_default_code (happyCtx 0 [7 / 10, 1 / 10, 2 / 10])
     unknown_mjob_request unknown_mjob_vec 0 "unknown_job"
     ["at_home", "health", "other", "services", "teacher"]
     rfl rfl (by decide) rfl rfl rfl rfl rfl rfl⟩

/-- C6 counterexample: a request with every validation-required field but
without Medu — a required StudentRecord field the model needs — passes
validation and then fails preprocessing, answering a 500-class "error"
response rather than a validation_error; no prediction is attempted. -/
theorem missing_field_500_counterexample :
    Req.hasKey (dropField sample_request "Medu") "Medu" = false ∧
    (predict_risk_main (happyCtx 0 [7 / 10, 1 / 10, 2 / 10]) true
      (dropField sample_request "Medu")).1.httpCode = 500 ∧
    (predict_risk_main (happyCtx 0 [7 / 10, 1 / 10, 2 / 10]) true
      (dropField sample_request "Medu")).1.status = "error" ∧
    (predict_risk_main (happyCtx 0 [7 / 10, 1 / 10, 2 / 10]) true
      (dropField sample_request "Medu")).1.status ≠ "validation_error" ∧
    (predict_risk_main (happyCtx 0 [7 / 10, 1 / 10, 2 / 10]) true
      (dropField sample_request "Medu")).2.predictInvoked = false ∧
    (predict_risk_main (happyCtx 0 [7 / 10, 1 / 10, 2 / 10]) true
      (dropField sample_request "Medu")).1.prediction = none :=
  ⟨rfl, rfl, rfl, by decide, rfl, rfl⟩

/-- C6 amended: a request missing one of the five fields the validator
requires (G1, G2, age, school, sex) is answered 400/validation_error
before any model work and yields no partial prediction; a request missing
any other model-input column instead passes validation and fails in
preprocessing with a 500 "error" response — also before any model
invocation and without a partial prediction. -/
theorem missing_required_field_handling :
    (∀ (ctx : Ctx) (data : Req) (f : String),
      ctx.pipelineLoaded = true → ctx.labelEncoderLoaded = true → data ≠ [] →
      f ∈ required_fields → data.hasKey f = false →
      (predict_risk_main ctx true data).1.httpCode = 400 ∧
      (predict_risk_main ctx true data).1.status = "validation_error" ∧
      (predict_risk_main ctx true data).1.prediction = none ∧
      (predict_risk_main ctx true data).2.predictInvoked = false) ∧
    ((predict_risk_main (happyCtx 0 [7 / 10, 1 / 10, 2 / 10]) true
        (dropField sample_request "Medu")).1.httpCode = 500 ∧
     (predict_risk_main (happyCtx 0 [7 / 10, 1 / 10, 2 / 10]) true
        (dropField sample_request "Medu")).1.status = "error" ∧
     (predict_risk_main (happyCtx 0 [7 / 10, 1 / 10, 2 / 10]) true
        (dropField sample_request "Medu")).1.prediction = none ∧
     (predict_risk_main (happyCtx 0 [7 / 10, 1 / 10, 2 / 10]) true
        (dropField sample_request "Medu")).2.predictInvoked = false) := by
  constructor
  · intro ctx data f hp1 hp2 hd hmem hmiss
    obtain ⟨e, hv⟩ := validate_main_missing data f hmem hmiss
    rw [predict_risk_main_validation_error ctx data e hp1 hp2 hd hv]
    exact ⟨rfl, rfl, rfl, rfl⟩
  · exact ⟨rfl, rfl, rfl, rfl⟩

/-- Witness for C6 amended: dropping G1 from the sample request gives a
400 validation_error without model invocation. -/
theorem missing_required_field_handling_witness :
    (happyCtx 0 [7 / 10, 1 / 10, 2 / 10]).pipelineLoaded = true ∧
    (happyCtx 0 [7 / 10, 1 / 10, 2 / 10]).labelEncoderLoaded = true ∧
    dropField sample_request "G1" ≠ [] ∧
    "G1" ∈ required_fields ∧
    Req.hasKey (dropField sample_request "G1") "G1" = false ∧
    ((predict_risk_main (happyCtx 0 [7 / 10, 1 / 10, 2 / 10]) true
        (dropField sample_request "G1")).1.httpCode = 400 ∧
     (predict_risk_main (happyCtx 0 [7 / 10, 1 / 10, 2 / 10]) true
        (dropField sample_request "G1")).1.status = "validation_error" ∧
     (predict_risk_main (happyCtx 0 [7 / 10, 1 / 10, 2 / 10]) true
        (dropField sample_request "G1")).1.prediction = none ∧
     (predict_risk_main (happyCtx 0 [7 / 10, 1 / 10, 2 / 10]) true
        (dropField sample_request "G1")).2.predictInvoked = false) :=
  ⟨rfl, rfl, by decide, by decide, by decide,
   missing_required_field_handling.1 (happyCtx 0 [7 / 10, 1 / 10, 2 / 10])
     (dropField sample_request "G1") "G1" rfl rfl (by decide) (by decide)
     (by decide)⟩

/-- The degradation-path behaviour of `generate_mentoring_advice` in the
main app: mock mode, a missing Gemini model, a raised exception, or an
empty response text all return the templated mock fallback. -/
theorem advice_falls_back (useMock : Bool) (g : Gemini) (data : Req)
    (g3 : ℤ) (rc : String) (tf : List Feature)
    (hfail : useMock = true ∨ g = none ∨
      (∃ f, g = some f ∧ ∀ p, f p = Except.error () ∨
        ∃ t, f p = Except.ok t ∧ pyStrip t = "")) :
    generate_mentoring_advice_main useMock g data g3 rc tf =
      generate_mock_advice rc g3
        (pyStrip (pyStr (data.getD "customPrompt" (Val.str "")))) := by
  rcases hfail with h | h | ⟨f, hg, hf⟩
  · subst h; rfl
  · subst h; cases useMock <;> rfl
  · subst hg
    cases useMock with
    | true => rfl
    | false =>
      unfold generate_mentoring_advice_main
      rcases hf (build_prompt_main (get_mentoring_strategy rc)
          (pyStrip (pyStr (data.getD "customPrompt" (Val.str "")))) g3 rc tf)
        with he | ⟨t, ht, hts⟩
      · simp only [he]
        rfl
      · simp only [ht]
        rw [if_pos hts]
        rfl

/-- The templated mock advice is never the empty string. -/
theorem mock_advice_ne_empty (rc : String) (g3 : ℤ) (cp : String) :
    generate_mock_advice rc g3 cp ≠ "" := by
  intro h
  unfold generate_mock_advice at h
  have hl := congrArg String.length h
  rw [String.length_append, String.length_append, String.length_append] at hl
  have h1 : 0 < ("> **MOCK MODE - Demo Advice (Predicted Grade: " : String).length := by
    decide
  have h0 : ("" : String).length = 0 := rfl
  rw [h0] at hl
  omega

/-- C7: for a validated request, failure or unavailability of the advice
backend (mock mode, missing model, exception, empty text) never surfaces
to the caller: the response still has status "success" with HTTP 200, a
non-empty shap_values list (the documented attribution fallback — the
main app serves it whether or not the explainer loaded), and a non-empty
mentoring_advice string (the templated mock fallback). -/
theorem degraded_advice_still_success (ctx : Ctx) (data : Req)
    (vec : List Val) (cls : ℤ)
    (h1 : ctx.pipelineLoaded = true) (h2 : ctx.labelEncoderLoaded = true)
    (hd : data ≠ [])
    (hv : validate_student_data_main data = Except.ok ())
    (hp : preprocess_data_for_pipeline
        (data.filter (fun kv => kv.1 ≠ "customPrompt")) ctx.encTable =
      Except.ok vec)
    (hc : ctx.predict vec = Except.ok cls)
    (hfail : ctx.useMockMode = true ∨ ctx.gemini = none ∨
      (∃ f, ctx.gemini = some f ∧ ∀ p, f p = Except.error () ∨
        ∃ t, f p = Except.ok t ∧ pyStrip t = "")) :
    (predict_risk_main ctx true data).1.status = "success" ∧
    (predict_risk_main ctx true data).1.httpCode = 200 ∧
    (predict_risk_main ctx true data).1.shap_values =
      some (get_shap_feature_importance_main ctx.explainerLoaded).1 ∧
    (get_shap_feature_importance_main ctx.explainerLoaded).1 ≠ [] ∧
    (predict_risk_main ctx true data).1.mentoring_advice =
      some (generate_mock_advice (pyLower (risk_mapping cls))
        (estimate_g3 cls (confidence_of (ctx.predictProba vec) cls).2)
        (pyStrip (pyStr (data.getD "customPrompt" (Val.str ""))))) ∧
    generate_mock_advice (pyLower (risk_mapping cls))
      (estimate_g3 cls (confidence_of (ctx.predictProba vec) cls).2)
      (pyStrip (pyStr (data.getD "customPrompt" (Val.str "")))) ≠ "" := by
  have hmain := predict_risk_main_eq_success ctx data vec cls h1 h2 hd hv hp hc
  rw [hmain]
  refine ⟨rfl, rfl, rfl, ?_, ?_, mock_advice_ne_empty _ _ _⟩
  · cases ctx.explainerLoaded <;> decide
  · show some (generate_mentoring_advice_main ctx.useMockMode ctx.gemini data
      (estimate_g3 cls (confidence_of (ctx.predictProba vec) cls).2)
      (pyLower (risk_mapping cls))
      (get_shap_feature_importance_main ctx.explainerLoaded).1) = _
    rw [advice_falls_back ctx.useMockMode ctx.gemini data _ _ _ hfail]

/-- Witness for C7: a context whose Gemini call raises on every prompt
still answers the sample request with a success response. -/
theorem degraded_advice_still_success_witness :
    validate_student_data_main sample_request = Except.ok () ∧
    preprocess_data_for_pipeline
      (sample_request.filter (fun kv => kv.1 ≠ "customPrompt"))
      failingGeminiCtx.encTable = Except.ok sample_vec ∧
    failingGeminiCtx.predict sample_vec = Except.ok 0 ∧
    ((predict_risk_main failingGeminiCtx true sample_request).1.status = "success" ∧
     (predict_risk_main failingGeminiCtx true sample_request).1.httpCode = 200 ∧
     (predict_risk_main failingGeminiCtx true sample_request).1.shap_values =
       some (get_shap_feature_importance_main failingGeminiCtx.explainerLoaded).1 ∧
     (get_shap_feature_importance_main failingGeminiCtx.explainerLoaded).1 ≠ [] ∧
     (predict_risk_main failingGeminiCtx true sample_request).1.mentoring_advice =
       some (generate_mock_advice (pyLower (risk_mapping 0))
         (estimate_g3 0 (confidence_of (failingGeminiCtx.predictProba sample_vec) 0).2)
         (pyStrip (pyStr (sample_request.getD "customPrompt" (Val.str ""))))) ∧
     generate_mock_advice (pyLower (risk_mapping 0))
       (estimate_g3 0 (confidence_of (failingGeminiCtx.predictProba sample_vec) 0).2)
       (pyStrip (pyStr (sample_request.getD "customPrompt" (Val.str "")))) ≠ "") :=
  ⟨rfl, rfl, rfl,
   degraded_advice_still_success failingGeminiCtx sample_request sample_vec 0
     rfl rfl (by decide) rfl rfl rfl
     (Or.inr (Or.inr ⟨fun _ => Except.error (), rfl, fun _ => Or.inl rfl⟩))⟩

/-- C9: the faculty-alert side effect is triggered exactly once for a
request answered with risk_category "high" and zero times otherwise, and
whether the alert call raises has no influence on the response body (the
failure is only logged). -/
theorem faculty_alert_on_high_only (ctx : Ctx) (data : Req)
    (vec : List Val) (cls : ℤ)
    (h1 : ctx.pipelineLoaded = true) (h2 : ctx.labelEncoderLoaded = true)
    (hd : data ≠ [])
    (hv : validate_student_data_main data = Except.ok ())
    (hp : preprocess_data_for_pipeline
        (data.filter (fun kv => kv.1 ≠ "customPrompt")) ctx.encTable =
      Except.ok vec)
    (hc : ctx.predict vec = Except.ok cls) :
    ((predict_risk_main ctx true data).2.alertCalls =
      if (predict_risk_main ctx true data).1.risk_category = some "high" then 1
      else 0) ∧
    ((predict_risk_main ctx true data).1.risk_category ≠ some "high" →
      (predict_risk_main ctx true data).2.alertCalls = 0) ∧
    (∀ b1 b2 : Bool,
      (predict_risk_main { ctx with alertFails := b1 } true data).1 =
      (predict_risk_main { ctx with alertFails := b2 } true data).1) := by
  have hmain := predict_risk_main_eq_success ctx data vec cls h1 h2 hd hv hp hc
  refine ⟨?_, ?_, ?_⟩
  · rw [hmain]
    show (if pyLower (risk_mapping cls) = "high" then 1 else 0) =
      (if some (pyLower (risk_mapping cls)) = some "high" then 1 else 0)
    by_cases hrc : pyLower (risk_mapping cls) = "high" <;> simp [hrc]
  · rw [hmain]
    intro hne
    show (if pyLower (risk_mapping cls) = "high" then 1 else 0) = 0
    rw [if_neg (fun hh => hne (by
      rw [show (main_success_result ctx data vec cls).1.risk_category =
        some (pyLower (risk_mapping cls)) from rfl, hh]))]
  · intro b1 b2
    rw [predict_risk_main_eq_success { ctx with alertFails := b1 } data vec cls
        h1 h2 hd hv hp hc,
      predict_risk_main_eq_success { ctx with alertFails := b2 } data vec cls
        h1 h2 hd hv hp hc]
    rfl

/-- Witness for C9: with the classifier answering class 0 (High) on the
sample request the alert fires exactly once; the conjunction also covers
the response-invariance under a failing alert call. -/
theorem faculty_alert_on_high_only_witness :
    validate_student_data_main sample_request = Except.ok () ∧
    preprocess_data_for_pipeline
      (sample_request.filter (fun kv => kv.1 ≠ "customPrompt"))
      (happyCtx 0 [7 / 10, 1 / 10, 2 / 10]).encTable = Except.ok sample_vec ∧
    (((predict_risk_main (happyCtx 0 [7 / 10, 1 / 10, 2 / 10]) true
        sample_request).2.alertCalls =
      if (predict_risk_main (happyCtx 0 [7 / 10, 1 / 10, 2 / 10]) true
        sample_request).1.risk_category = some "high" then 1 else 0) ∧
    ((predict_risk_main (happyCtx 0 [7 / 10, 1 / 10, 2 / 10]) true
        sample_request).1.risk_category ≠ some "high" →
      (predict_risk_main (happyCtx 0 [7 / 10, 1 / 10, 2 / 10]) true
        sample_request).2.alertCalls = 0) ∧
    (∀ b1 b2 : Bool,
      (predict_risk_main { happyCtx 0 [7 / 10, 1 / 10, 2 / 10] with
        alertFails := b1 } true sample_request).1 =
      (predict_risk_main { happyCtx 0 [7 / 10, 1 / 10, 2 / 10] with
        alertFails := b2 } true sample_request).1)) :=
  ⟨rfl, rfl,
   faculty_alert_on_high_only (happyCtx 0 [7 / 10, 1 / 10, 2 / 10])
     sample_request sample_vec 0 rfl rfl (by decide) rfl rfl rfl⟩
